import Mathlib

/-!
Verification development for the Xenos shader translator front end
(`src/xenia/gpu/shader_translator.cc`).

The single source file is shallowly embedded below.  Raw packed instruction
words are decoded in `ucode.h`/`shader.h` (outside the provided sources) via
bit-field accessor methods; following the spec, a raw instruction is therefore
represented here as the record of its accessor results, and the microcode
buffer as a map from word offsets to those records.  All functions of the
source file itself are translated statement by statement.
-/

set_option maxRecDepth 20000

namespace xe

/-- Shader type (xenos::ShaderType) as used by the translator: vertex or pixel. -/
inductive ShaderType where
  | kVertex
  | kPixel
deriving DecidableEq, Repr

/-- Swizzle source selection for a single component (shader.h SwizzleSource). -/
inductive SwizzleSource where
  | kX
  | kY
  | kZ
  | kW
  | k0
  | k1
deriving DecidableEq, Repr

/-- Storage target of an instruction result (shader.h InstructionStorageTarget). -/
inductive InstructionStorageTarget where
  | kNone
  | kRegister
  | kInterpolator
  | kPosition
  | kPointSizeEdgeFlagKillVertex
  | kExportAddress
  | kExportData
  | kColor
  | kDepth
deriving DecidableEq, Repr

/-- Storage source of an instruction operand (shader.h InstructionStorageSource). -/
inductive InstructionStorageSource where
  | kRegister
  | kConstantFloat
  | kVertexFetchConstant
  | kTextureFetchConstant
deriving DecidableEq, Repr

/-- Addressing mode for operand and result storage (shader.h). -/
inductive InstructionStorageAddressingMode where
  | kStatic
  | kAddressAbsolute
  | kAddressRelative
deriving DecidableEq, Repr

/-- Modelled from the spec: GetSwizzleFromComponentIndex (shader.h, outside src)
maps component index 0..3 to the x/y/z/w swizzle source. -/
def GetSwizzleFromComponentIndex (i : Nat) : SwizzleSource :=
  match i with
  | 0 => .kX
  | 1 => .kY
  | 2 => .kZ
  | _ => .kW

/-- Decoded instruction operand (shader.h InstructionOperand), with the default
member initializers of the header. -/
structure InstructionOperand where
  storage_source : InstructionStorageSource := .kRegister
  storage_index : Nat := 0
  storage_addressing_mode : InstructionStorageAddressingMode := .kStatic
  is_negated : Bool := false
  is_absolute_value : Bool := false
  component_count : Nat := 0
  components : List SwizzleSource := [.kX, .kY, .kZ, .kW]
deriving DecidableEq, Repr

instance : Inhabited InstructionOperand := ⟨{}⟩

/-- Modelled from the spec: InstructionOperand::IsStandardSwizzle (shader.h,
outside src) holds when the swizzle is the identity selection for the operand
component count ("unmodified, standard-swizzle" in the spec). -/
def InstructionOperand.IsStandardSwizzle (o : InstructionOperand) : Bool :=
  (List.range o.component_count).all fun j =>
    decide (o.components.getD j .kX = GetSwizzleFromComponentIndex j)

/-- Decoded instruction result (shader.h InstructionResult), with the default
member initializers of the header. -/
structure InstructionResult where
  storage_target : InstructionStorageTarget := .kNone
  storage_index : Nat := 0
  storage_addressing_mode : InstructionStorageAddressingMode := .kStatic
  is_clamped : Bool := false
  original_write_mask : Nat := 0
  components : List SwizzleSource := [.kX, .kY, .kZ, .kW]
deriving DecidableEq, Repr

/-- Modelled from the spec: InstructionResult::GetUsedWriteMask (shader.h,
outside src); the write mask of a result that has no storage target is empty. -/
def InstructionResult.GetUsedWriteMask (r : InstructionResult) : Nat :=
  if r.storage_target = .kNone then 0 else r.original_write_mask

/-- Modelled from the spec: InstructionResult::GetUsedResultComponents
(shader.h, outside src); components of the used write mask that are written
from the operation rather than as the constants 0 or 1. -/
def InstructionResult.GetUsedResultComponents (r : InstructionResult) : Nat :=
  (List.range 4).foldl
    (fun acc i =>
      if r.GetUsedWriteMask.testBit i ∧ r.components.getD i .kX ≠ .k0 ∧
          r.components.getD i .kX ≠ .k1 then
        acc ||| (1 <<< i)
      else acc)
    0

/-- Fetch opcode (ucode.h FetchOpcode); the closed set of opcodes handled by
the translator. -/
inductive FetchOpcode where
  | kVertexFetch
  | kTextureFetch
  | kGetTextureBorderColorFrac
  | kGetTextureComputedLod
  | kGetTextureGradients
  | kGetTextureWeights
  | kSetTextureLod
  | kSetTextureGradientsHorz
  | kSetTextureGradientsVert
deriving DecidableEq, Repr

/-- Texture fetch dimension (xenos::FetchOpDimension). -/
inductive FetchOpDimension where
  | k1D
  | k2D
  | k3DOrStacked
  | kCube
deriving DecidableEq, Repr

/-- Modelled from the spec: xenos::GetFetchOpDimensionComponentCount (outside
src); the coordinate component count of a fetch dimension. -/
def GetFetchOpDimensionComponentCount : FetchOpDimension → Nat
  | .k1D => 1
  | .k2D => 2
  | .k3DOrStacked => 3
  | .kCube => 3

/-- Modelled from the spec: a raw VertexFetchInstruction (ucode.h, outside
src), represented by the results of its bit-field accessors.  The all-zero
record is the `memset(..., 0, ...)` initial value used by the translator. -/
structure VertexFetchInstruction where
  is_mini_fetch : Bool := false
  is_predicated : Bool := false
  predicate_condition : Bool := false
  dest : Nat := 0
  dest_swizzle : Nat := 0
  is_dest_relative : Bool := false
  src : Nat := 0
  src_swizzle : Nat := 0
  is_src_relative : Bool := false
  fetch_constant_index : Nat := 0
  data_format : Nat := 0
  offset : Nat := 0
  stride : Nat := 0
  exp_adjust : Int := 0
  prefetch_count : Nat := 0
  is_index_rounded : Bool := false
  is_signed : Bool := false
  is_normalized : Bool := false
  signed_rf_mode : Nat := 0
deriving DecidableEq, Repr

/-- Modelled from the spec: a raw TextureFetchInstruction (ucode.h, outside
src), represented by the results of its bit-field accessors. -/
structure TextureFetchInstruction where
  opcode : FetchOpcode := .kTextureFetch
  dimension : FetchOpDimension := .k1D
  is_predicated : Bool := false
  predicate_condition : Bool := false
  dest : Nat := 0
  dest_swizzle : Nat := 0
  is_dest_relative : Bool := false
  src : Nat := 0
  src_swizzle : Nat := 0
  is_src_relative : Bool := false
  fetch_constant_index : Nat := 0
  fetch_valid_only : Bool := false
  unnormalized_coordinates : Bool := false
  mag_filter : Nat := 0
  min_filter : Nat := 0
  mip_filter : Nat := 0
  aniso_filter : Nat := 0
  vol_mag_filter : Nat := 0
  vol_min_filter : Nat := 0
  use_computed_lod : Bool := false
  use_register_lod : Bool := false
  use_register_gradients : Bool := false
  lod_bias : Int := 0
  offset_x : Int := 0
  offset_y : Int := 0
  offset_z : Int := 0
deriving DecidableEq, Repr

/-- Modelled from the spec: a raw AluInstruction (ucode.h, outside src),
represented by the results of its bit-field accessors; the write-mask helper
accessors (GetVectorOpResultWriteMask and friends) are likewise taken at their
boundary values. -/
structure AluInstruction where
  is_predicated : Bool := false
  predicate_condition : Bool := false
  is_export : Bool := false
  export_write_mask : Nat := 0
  vector_dest : Nat := 0
  is_vector_dest_relative : Bool := false
  vector_clamp : Bool := false
  scalar_dest : Nat := 0
  is_scalar_dest_relative : Bool := false
  scalar_clamp : Bool := false
  vector_opcode : Nat := 0
  scalar_opcode : Nat := 0
  vector_op_result_write_mask : Nat := 0
  scalar_op_result_write_mask : Nat := 0
  constant_0_write_mask : Nat := 0
  constant_1_write_mask : Nat := 0
  abs_constants : Bool := false
  is_const_0_addressed : Bool := false
  is_const_1_addressed : Bool := false
  is_address_relative : Bool := false
  src1_reg : Nat := 0
  src2_reg : Nat := 0
  src3_reg : Nat := 0
  src1_is_temp : Bool := false
  src2_is_temp : Bool := false
  src3_is_temp : Bool := false
  src1_negate : Bool := false
  src2_negate : Bool := false
  src3_negate : Bool := false
  src1_swizzle : Nat := 0
  src2_swizzle : Nat := 0
  src3_swizzle : Nat := 0
deriving DecidableEq, Repr

/-- Accessor src_reg(i) of the raw ALU instruction, i in 1..3. -/
def AluInstruction.src_reg (op : AluInstruction) : Nat → Nat
  | 1 => op.src1_reg
  | 2 => op.src2_reg
  | _ => op.src3_reg

/-- Accessor src_is_temp(i) of the raw ALU instruction, i in 1..3. -/
def AluInstruction.src_is_temp (op : AluInstruction) : Nat → Bool
  | 1 => op.src1_is_temp
  | 2 => op.src2_is_temp
  | _ => op.src3_is_temp

/-- Accessor src_negate(i) of the raw ALU instruction, i in 1..3. -/
def AluInstruction.src_negate (op : AluInstruction) : Nat → Bool
  | 1 => op.src1_negate
  | 2 => op.src2_negate
  | _ => op.src3_negate

/-- Accessor src_swizzle(i) of the raw ALU instruction, i in 1..3. -/
def AluInstruction.src_swizzle (op : AluInstruction) : Nat → Nat
  | 1 => op.src1_swizzle
  | 2 => op.src2_swizzle
  | _ => op.src3_swizzle

/-- Modelled from the spec: AluVectorOpcode values used by the translator
(ucode.h, outside src): max is opcode 2 of the vector table. -/
def kAluVectorOpcodeMax : Nat := 2

/-- Modelled from the spec: mad is opcode 11 of the vector table. -/
def kAluVectorOpcodeMad : Nat := 11

/-- Modelled from the spec: retain_prev is opcode 50 of the scalar table. -/
def kAluScalarOpcodeRetainPrev : Nat := 50

/-- Value of UINT32_MAX, used by the source as an "invalid" sentinel. -/
def UINT32_MAX : Nat := 4294967295

/-- Modelled from the spec: ucode::AluVectorOpcodeIsKill (ucode.h, outside
src); the kill_eq/kill_gt/kill_ge/kill_ne vector opcodes (24..27). -/
def AluVectorOpcodeIsKill (opcode : Nat) : Bool :=
  decide (24 ≤ opcode ∧ opcode ≤ 27)

/-- Modelled from the spec: ucode::AluScalarOpcodeIsKill (ucode.h, outside
src); the kills_eq/kills_gt/kills_ge/kills_ne/kills_one scalar opcodes
(35..39). -/
def AluScalarOpcodeIsKill (opcode : Nat) : Bool :=
  decide (35 ≤ opcode ∧ opcode ≤ 39)

/-- Modelled from the spec: ucode::AluVectorOpHasSideEffects (ucode.h, outside
src); vector opcodes with side effects are the setp_*_push (20..23) and
kill_* (24..27) variants together with maxa (29), which writes the address
register. -/
def AluVectorOpHasSideEffects (opcode : Nat) : Bool :=
  decide ((20 ≤ opcode ∧ opcode ≤ 27) ∨ opcode = 29)

/-- Modelled from the spec: ExportRegister values (ucode.h, outside src). -/
def kExportRegisterExportAddress : Nat := 32

/-- Modelled from the spec: first export data register eM0. -/
def kExportRegisterExportData0 : Nat := 33

/-- Modelled from the spec: last export data register eM4. -/
def kExportRegisterExportData4 : Nat := 37

/-- Modelled from the spec: first vertex shader interpolator export. -/
def kExportRegisterVSInterpolator0 : Nat := 0

/-- Modelled from the spec: last vertex shader interpolator export. -/
def kExportRegisterVSInterpolator15 : Nat := 15

/-- Modelled from the spec: vertex shader position export. -/
def kExportRegisterVSPosition : Nat := 62

/-- Modelled from the spec: vertex shader point size / edge flag / kill vertex
export. -/
def kExportRegisterVSPointSizeEdgeFlagKillVertex : Nat := 63

/-- Modelled from the spec: first pixel shader color export. -/
def kExportRegisterPSColor0 : Nat := 0

/-- Modelled from the spec: last pixel shader color export. -/
def kExportRegisterPSColor3 : Nat := 3

/-- Modelled from the spec: pixel shader depth export. -/
def kExportRegisterPSDepth : Nat := 61

/-- Control flow opcode (ucode.h ControlFlowOpcode); the closed 4-bit set. -/
inductive ControlFlowOpcode where
  | kNop
  | kExec
  | kExecEnd
  | kCondExec
  | kCondExecEnd
  | kCondExecPred
  | kCondExecPredEnd
  | kCondExecPredClean
  | kCondExecPredCleanEnd
  | kLoopStart
  | kLoopEnd
  | kCondCall
  | kReturn
  | kCondJmp
  | kAlloc
  | kMarkVsFetchDone
deriving DecidableEq, Repr

/-- Modelled from the spec: ucode::IsControlFlowOpcodeExec (ucode.h, outside
src); the exec-family opcodes. -/
def IsControlFlowOpcodeExec (opcode : ControlFlowOpcode) : Bool :=
  match opcode with
  | .kExec | .kExecEnd | .kCondExec | .kCondExecEnd | .kCondExecPred
  | .kCondExecPredEnd | .kCondExecPredClean | .kCondExecPredCleanEnd => true
  | _ => false

/-- Allocation type of the alloc control flow instruction (ucode.h AllocType). -/
inductive AllocType where
  | kNoAlloc
  | kVsPosition
  | kVsInterpolatorsOrPsColors
  | kMemory
deriving DecidableEq, Repr

/-- Modelled from the spec: one unpacked ControlFlowInstruction (ucode.h,
outside src).  The C++ type is a union of per-opcode bit-layout views over the
same 48 bits; each view is only read for its own opcode, so the views are
flattened into one record of accessor results here. -/
structure ControlFlowInstruction where
  opcode : ControlFlowOpcode := .kNop
  address : Nat := 0
  count : Nat := 0
  sequence : Nat := 0
  clean : Bool := false
  is_yield : Bool := false
  bool_address : Nat := 0
  condition : Bool := false
  loop_id : Nat := 0
  is_repeat : Bool := false
  is_predicated_break : Bool := false
  is_unconditional : Bool := false
  is_predicated : Bool := false
  alloc_type : AllocType := .kNoAlloc
  alloc_size : Nat := 0
deriving DecidableEq, Repr

/-- Exec instruction conditionality (shader.h ParsedExecInstruction::Type). -/
inductive ExecType where
  | kUnconditional
  | kPredicated
  | kConditional
deriving DecidableEq, Repr

/-- Decoded exec-family control flow instruction (shader.h
ParsedExecInstruction), with the default member initializers of the header. -/
structure ParsedExecInstruction where
  dword_index : Nat := 0
  opcode : ControlFlowOpcode := .kExec
  opcode_name : String := ""
  instruction_address : Nat := 0
  instruction_count : Nat := 0
  type : ExecType := .kUnconditional
  bool_constant_index : Nat := 0
  condition : Bool := false
  is_end : Bool := false
  clean : Bool := true
  is_yield : Bool := false
  sequence : Nat := 0
deriving DecidableEq, Repr

/-- Decoded loop start instruction (shader.h ParsedLoopStartInstruction). -/
structure ParsedLoopStartInstruction where
  dword_index : Nat := 0
  loop_constant_index : Nat := 0
  is_repeat : Bool := false
  loop_skip_address : Nat := 0
deriving DecidableEq, Repr

/-- Decoded loop end instruction (shader.h ParsedLoopEndInstruction). -/
structure ParsedLoopEndInstruction where
  dword_index : Nat := 0
  is_predicated_break : Bool := false
  predicate_condition : Bool := false
  loop_constant_index : Nat := 0
  loop_body_address : Nat := 0
deriving DecidableEq, Repr

/-- Call instruction conditionality (shader.h ParsedCallInstruction::Type). -/
inductive CallType where
  | kUnconditional
  | kPredicated
  | kConditional
deriving DecidableEq, Repr

/-- Decoded conditional call instruction (shader.h ParsedCallInstruction). -/
structure ParsedCallInstruction where
  dword_index : Nat := 0
  target_address : Nat := 0
  type : CallType := .kUnconditional
  bool_constant_index : Nat := 0
  condition : Bool := false
deriving DecidableEq, Repr

/-- Decoded return instruction (shader.h ParsedReturnInstruction). -/
structure ParsedReturnInstruction where
  dword_index : Nat := 0
deriving DecidableEq, Repr

/-- Jump instruction conditionality (shader.h ParsedJumpInstruction::Type). -/
inductive JumpType where
  | kUnconditional
  | kPredicated
  | kConditional
deriving DecidableEq, Repr

/-- Decoded conditional jump instruction (shader.h ParsedJumpInstruction). -/
structure ParsedJumpInstruction where
  dword_index : Nat := 0
  target_address : Nat := 0
  type : JumpType := .kUnconditional
  bool_constant_index : Nat := 0
  condition : Bool := false
deriving DecidableEq, Repr

/-- Decoded alloc instruction (shader.h ParsedAllocInstruction). -/
structure ParsedAllocInstruction where
  dword_index : Nat := 0
  type : AllocType := .kNoAlloc
  count : Nat := 0
  is_vertex_shader : Bool := false
deriving DecidableEq, Repr

/-- Fetch attributes of a decoded vertex fetch (shader.h
ParsedVertexFetchInstruction::Attributes). -/
structure ParsedVertexFetchAttributes where
  data_format : Nat := 0
  offset : Nat := 0
  stride : Nat := 0
  exp_adjust : Int := 0
  prefetch_count : Nat := 0
  is_index_rounded : Bool := false
  is_signed : Bool := false
  is_integer : Bool := false
  signed_rf_mode : Nat := 0
deriving DecidableEq, Repr

/-- Decoded vertex fetch instruction (shader.h ParsedVertexFetchInstruction). -/
structure ParsedVertexFetchInstruction where
  opcode : FetchOpcode := .kVertexFetch
  opcode_name : String := ""
  is_mini_fetch : Bool := false
  is_predicated : Bool := false
  predicate_condition : Bool := false
  result : InstructionResult := {}
  operand_count : Nat := 0
  operands : List InstructionOperand := []
  attributes : ParsedVertexFetchAttributes := {}
deriving DecidableEq, Repr

/-- Fetch attributes of a decoded texture fetch (shader.h
ParsedTextureFetchInstruction::Attributes). -/
structure ParsedTextureFetchAttributes where
  fetch_valid_only : Bool := false
  unnormalized_coordinates : Bool := false
  mag_filter : Nat := 0
  min_filter : Nat := 0
  mip_filter : Nat := 0
  aniso_filter : Nat := 0
  vol_mag_filter : Nat := 0
  vol_min_filter : Nat := 0
  use_computed_lod : Bool := false
  use_register_lod : Bool := false
  use_register_gradients : Bool := false
  lod_bias : Int := 0
  offset_x : Int := 0
  offset_y : Int := 0
  offset_z : Int := 0
deriving DecidableEq, Repr

/-- Decoded texture fetch instruction (shader.h
ParsedTextureFetchInstruction). -/
structure ParsedTextureFetchInstruction where
  opcode : FetchOpcode := .kTextureFetch
  opcode_name : String := ""
  dimension : FetchOpDimension := .k1D
  is_predicated : Bool := false
  predicate_condition : Bool := false
  result : InstructionResult := {}
  operand_count : Nat := 0
  operands : List InstructionOperand := []
  attributes : ParsedTextureFetchAttributes := {}
deriving DecidableEq, Repr

/-- Decoded co-issued ALU instruction (shader.h ParsedAluInstruction). -/
structure ParsedAluInstruction where
  vector_opcode : Nat := 0
  scalar_opcode : Nat := 0
  vector_opcode_name : String := ""
  scalar_opcode_name : String := ""
  is_predicated : Bool := false
  predicate_condition : Bool := false
  vector_and_constant_result : InstructionResult := {}
  scalar_result : InstructionResult := {}
  vector_operand_count : Nat := 0
  vector_operands : List InstructionOperand := []
  scalar_operand_count : Nat := 0
  scalar_operands : List InstructionOperand := []
deriving DecidableEq, Repr

/-- Translation of ParseControlFlowExec (shader_translator.cc). -/
def ParseControlFlowExec (cf : ControlFlowInstruction) (cf_index : Nat) :
    ParsedExecInstruction :=
  { dword_index := cf_index
    opcode := cf.opcode
    opcode_name := if cf.opcode = .kExecEnd then "exece" else "exec"
    instruction_address := cf.address
    instruction_count := cf.count
    type := .kUnconditional
    is_end := decide (cf.opcode = .kExecEnd)
    clean := cf.clean
    is_yield := cf.is_yield
    sequence := cf.sequence }

/-- Translation of ParseControlFlowCondExec (shader_translator.cc); the two
*End opcodes set is_end and the name "cexece", and the two non-PredClean
opcodes force clean to false (the struct default is true). -/
def ParseControlFlowCondExec (cf : ControlFlowInstruction) (cf_index : Nat) :
    ParsedExecInstruction :=
  let is_end : Bool :=
    decide (cf.opcode = .kCondExecEnd ∨ cf.opcode = .kCondExecPredCleanEnd)
  { dword_index := cf_index
    opcode := cf.opcode
    opcode_name := if is_end then "cexece" else "cexec"
    instruction_address := cf.address
    instruction_count := cf.count
    type := .kConditional
    bool_constant_index := cf.bool_address
    condition := cf.condition
    is_end := is_end
    clean := !decide (cf.opcode = .kCondExec ∨ cf.opcode = .kCondExecEnd)
    is_yield := cf.is_yield
    sequence := cf.sequence }

/-- Translation of ParseControlFlowCondExecPred (shader_translator.cc). -/
def ParseControlFlowCondExecPred (cf : ControlFlowInstruction) (cf_index : Nat) :
    ParsedExecInstruction :=
  { dword_index := cf_index
    opcode := cf.opcode
    opcode_name := if cf.opcode = .kCondExecPredEnd then "exece" else "exec"
    instruction_address := cf.address
    instruction_count := cf.count
    type := .kPredicated
    condition := cf.condition
    is_end := decide (cf.opcode = .kCondExecPredEnd)
    clean := cf.clean
    is_yield := cf.is_yield
    sequence := cf.sequence }

/-- Translation of ParseControlFlowLoopStart (shader_translator.cc). -/
def ParseControlFlowLoopStart (cf : ControlFlowInstruction) (cf_index : Nat) :
    ParsedLoopStartInstruction :=
  { dword_index := cf_index
    loop_constant_index := cf.loop_id
    is_repeat := cf.is_repeat
    loop_skip_address := cf.address }

/-- Translation of ParseControlFlowLoopEnd (shader_translator.cc). -/
def ParseControlFlowLoopEnd (cf : ControlFlowInstruction) (cf_index : Nat) :
    ParsedLoopEndInstruction :=
  { dword_index := cf_index
    is_predicated_break := cf.is_predicated_break
    predicate_condition := cf.condition
    loop_constant_index := cf.loop_id
    loop_body_address := cf.address }

/-- Translation of ParseControlFlowCondCall (shader_translator.cc). -/
def ParseControlFlowCondCall (cf : ControlFlowInstruction) (cf_index : Nat) :
    ParsedCallInstruction :=
  if cf.is_unconditional then
    { dword_index := cf_index
      target_address := cf.address
      type := .kUnconditional }
  else if cf.is_predicated then
    { dword_index := cf_index
      target_address := cf.address
      type := .kPredicated
      condition := cf.condition }
  else
    { dword_index := cf_index
      target_address := cf.address
      type := .kConditional
      bool_constant_index := cf.bool_address
      condition := cf.condition }

/-- Translation of ParseControlFlowReturn (shader_translator.cc). -/
def ParseControlFlowReturn (cf : ControlFlowInstruction) (cf_index : Nat) :
    ParsedReturnInstruction :=
  let _ := cf
  { dword_index := cf_index }

/-- Translation of ParseControlFlowCondJmp (shader_translator.cc). -/
def ParseControlFlowCondJmp (cf : ControlFlowInstruction) (cf_index : Nat) :
    ParsedJumpInstruction :=
  if cf.is_unconditional then
    { dword_index := cf_index
      target_address := cf.address
      type := .kUnconditional }
  else if cf.is_predicated then
    { dword_index := cf_index
      target_address := cf.address
      type := .kPredicated
      condition := cf.condition }
  else
    { dword_index := cf_index
      target_address := cf.address
      type := .kConditional
      bool_constant_index := cf.bool_address
      condition := cf.condition }

/-- Translation of ParseControlFlowAlloc (shader_translator.cc). -/
def ParseControlFlowAlloc (cf : ControlFlowInstruction) (cf_index : Nat)
    (is_vertex_shader : Bool) : ParsedAllocInstruction :=
  { dword_index := cf_index
    type := cf.alloc_type
    count := cf.alloc_size
    is_vertex_shader := is_vertex_shader }

/-- One step of the fetch result swizzle decode loop (the body of the loop in
ParseFetchInstructionResult of shader_translator.cc): value 4 or 6 selects
constant 0, 5 selects constant 1, 7 masks the component out, and otherwise
the low two bits select x/y/z/w. -/
def fetchResultStep (i swizzle mask : Nat) (comps : List SwizzleSource) :
    Nat × List SwizzleSource :=
  match swizzle &&& 0x7 with
  | 4 => (mask, comps.set i .k0)
  | 6 => (mask, comps.set i .k0)
  | 5 => (mask, comps.set i .k1)
  | 7 => (mask &&& (15 ^^^ (1 <<< i)), comps)
  | _ => (mask, comps.set i (GetSwizzleFromComponentIndex (swizzle &&& 0x3)))

/-- Translation of ParseFetchInstructionResult (shader_translator.cc); the
4-component swizzle field is walked 3 bits at a time. -/
def ParseFetchInstructionResult (dest swizzle : Nat) (is_relative : Bool) :
    InstructionResult :=
  let mc0 := fetchResultStep 0 swizzle 0b1111 [.kX, .kY, .kZ, .kW]
  let mc1 := fetchResultStep 1 (swizzle >>> 3) mc0.1 mc0.2
  let mc2 := fetchResultStep 2 (swizzle >>> 6) mc1.1 mc1.2
  let mc3 := fetchResultStep 3 (swizzle >>> 9) mc2.1 mc2.2
  { storage_target := .kRegister
    storage_index := dest
    is_clamped := false
    storage_addressing_mode :=
      if is_relative then .kAddressRelative else .kStatic
    original_write_mask := mc3.1
    components := mc3.2 }

/-- Translation of ParseVertexFetchInstruction (shader_translator.cc).
Returns the decoded instruction and the boolean return value of the source
function (true when the caller must update its last-full-fetch cache). -/
def ParseVertexFetchInstruction (op previous_full_op : VertexFetchInstruction) :
    ParsedVertexFetchInstruction × Bool :=
  let full_op := if op.is_mini_fetch then previous_full_op else op
  let src_op : InstructionOperand :=
    { storage_source := .kRegister
      storage_index := full_op.src
      storage_addressing_mode :=
        if full_op.is_src_relative then .kAddressRelative else .kStatic
      is_negated := false
      is_absolute_value := false
      component_count := 1
      components :=
        ([SwizzleSource.kX, .kY, .kZ, .kW]).set 0
          (GetSwizzleFromComponentIndex (full_op.src_swizzle &&& 0x3)) }
  let const_op : InstructionOperand :=
    { storage_source := .kVertexFetchConstant
      storage_index := full_op.fetch_constant_index }
  ({ opcode := .kVertexFetch
     opcode_name := if op.is_mini_fetch then "vfetch_mini" else "vfetch_full"
     is_mini_fetch := op.is_mini_fetch
     is_predicated := op.is_predicated
     predicate_condition := op.predicate_condition
     result := ParseFetchInstructionResult op.dest op.dest_swizzle
       op.is_dest_relative
     operand_count := 2
     operands := [src_op, const_op]
     attributes :=
       { data_format := op.data_format
         offset := op.offset
         stride := full_op.stride
         exp_adjust := op.exp_adjust
         prefetch_count := op.prefetch_count
         is_index_rounded := op.is_index_rounded
         is_signed := op.is_signed
         is_integer := !op.is_normalized
         signed_rf_mode := op.signed_rf_mode } },
   !op.is_mini_fetch)

/-- Per-opcode decode info of ParseTextureFetchInstruction
(shader_translator.cc TextureFetchOpcodeInfo). -/
structure TextureFetchOpcodeInfo where
  name : String
  has_dest : Bool
  has_const : Bool
  has_attributes : Bool
  override_component_count : Nat
deriving DecidableEq, Repr

/-- Dimension-indexed name table for tfetch (shader_translator.cc). -/
def tfetchName : FetchOpDimension → String
  | .k1D => "tfetch1D"
  | .k2D => "tfetch2D"
  | .k3DOrStacked => "tfetch3D"
  | .kCube => "tfetchCube"

/-- Dimension-indexed name table for getBCF (shader_translator.cc). -/
def getBCFName : FetchOpDimension → String
  | .k1D => "getBCF1D"
  | .k2D => "getBCF2D"
  | .k3DOrStacked => "getBCF3D"
  | .kCube => "getBCFCube"

/-- Dimension-indexed name table for getCompTexLOD (shader_translator.cc). -/
def getCompTexLODName : FetchOpDimension → String
  | .k1D => "getCompTexLOD1D"
  | .k2D => "getCompTexLOD2D"
  | .k3DOrStacked => "getCompTexLOD3D"
  | .kCube => "getCompTexLODCube"

/-- Dimension-indexed name table for getWeights (shader_translator.cc). -/
def getWeightsName : FetchOpDimension → String
  | .k1D => "getWeights1D"
  | .k2D => "getWeights2D"
  | .k3DOrStacked => "getWeights3D"
  | .kCube => "getWeightsCube"

/-- The opcode_info switch of ParseTextureFetchInstruction
(shader_translator.cc); none corresponds to the asserting default case, which
leaves the out-parameter untouched. -/
def texOpcodeInfo (op : TextureFetchInstruction) :
    Option TextureFetchOpcodeInfo :=
  match op.opcode with
  | .kTextureFetch => some ⟨tfetchName op.dimension, true, true, true, 0⟩
  | .kGetTextureBorderColorFrac =>
    some ⟨getBCFName op.dimension, true, true, true, 0⟩
  | .kGetTextureComputedLod =>
    some ⟨getCompTexLODName op.dimension, true, true, true, 0⟩
  | .kGetTextureGradients => some ⟨"getGradients", true, true, true, 2⟩
  | .kGetTextureWeights =>
    some ⟨getWeightsName op.dimension, true, true, true, 0⟩
  | .kSetTextureLod => some ⟨"setTexLOD", false, false, false, 1⟩
  | .kSetTextureGradientsHorz => some ⟨"setGradientH", false, false, false, 3⟩
  | .kSetTextureGradientsVert => some ⟨"setGradientV", false, false, false, 3⟩
  | .kVertexFetch => none

/-- The source swizzle decode loop shared by the fetch decoders: component j
takes the two bits at position 2j of the swizzle field, starting from the
default component list. -/
def setSwizzleComponents (count swizzle : Nat) : List SwizzleSource :=
  (List.range count).foldl
    (fun cs j =>
      cs.set j (GetSwizzleFromComponentIndex ((swizzle >>> (2 * j)) &&& 0x3)))
    [.kX, .kY, .kZ, .kW]

/-- Translation of ParseTextureFetchInstruction (shader_translator.cc). -/
def ParseTextureFetchInstruction (op : TextureFetchInstruction) :
    ParsedTextureFetchInstruction :=
  match texOpcodeInfo op with
  | none => {}
  | some opcode_info =>
    let result :=
      if opcode_info.has_dest then
        ParseFetchInstructionResult op.dest op.dest_swizzle op.is_dest_relative
      else ({} : InstructionResult)
    let component_count :=
      if opcode_info.override_component_count ≠ 0 then
        opcode_info.override_component_count
      else GetFetchOpDimensionComponentCount op.dimension
    let src_op : InstructionOperand :=
      { storage_source := .kRegister
        storage_index := op.src
        storage_addressing_mode :=
          if op.is_src_relative then .kAddressRelative else .kStatic
        is_negated := false
        is_absolute_value := false
        component_count := component_count
        components := setSwizzleComponents component_count op.src_swizzle }
    let const_ops : List InstructionOperand :=
      if opcode_info.has_const then
        [{ storage_source := .kTextureFetchConstant
           storage_index := op.fetch_constant_index }]
      else []
    { opcode := op.opcode
      opcode_name := opcode_info.name
      dimension := op.dimension
      is_predicated := op.is_predicated
      predicate_condition := op.predicate_condition
      result := result
      operand_count := 1 + const_ops.length
      operands := src_op :: const_ops
      attributes :=
        if opcode_info.has_attributes then
          { fetch_valid_only := op.fetch_valid_only
            unnormalized_coordinates := op.unnormalized_coordinates
            mag_filter := op.mag_filter
            min_filter := op.min_filter
            mip_filter := op.mip_filter
            aniso_filter := op.aniso_filter
            vol_mag_filter := op.vol_mag_filter
            vol_min_filter := op.vol_min_filter
            use_computed_lod := op.use_computed_lod
            use_register_lod := op.use_register_lod
            use_register_gradients := op.use_register_gradients
            lod_bias := op.lod_bias
            offset_x := op.offset_x
            offset_y := op.offset_y
            offset_z := op.offset_z }
        else {} }

/-- One row of the fixed ALU opcode tables (shader_translator.cc
AluOpcodeInfo). -/
structure AluOpcodeInfo where
  name : String
  argument_count : Nat
  src_swizzle_component_count : Nat
deriving DecidableEq, Repr

/-- The fixed vector opcode table alu_vector_opcode_infos
(shader_translator.cc); entries 30 and 31 of the 0x20-entry C array are
zero-initialized. -/
def alu_vector_opcode_infos : List AluOpcodeInfo := [
  ⟨"add", 2, 4⟩,
  ⟨"mul", 2, 4⟩,
  ⟨"max", 2, 4⟩,
  ⟨"min", 2, 4⟩,
  ⟨"seq", 2, 4⟩,
  ⟨"sgt", 2, 4⟩,
  ⟨"sge", 2, 4⟩,
  ⟨"sne", 2, 4⟩,
  ⟨"frc", 1, 4⟩,
  ⟨"trunc", 1, 4⟩,
  ⟨"floor", 1, 4⟩,
  ⟨"mad", 3, 4⟩,
  ⟨"cndeq", 3, 4⟩,
  ⟨"cndge", 3, 4⟩,
  ⟨"cndgt", 3, 4⟩,
  ⟨"dp4", 2, 4⟩,
  ⟨"dp3", 2, 4⟩,
  ⟨"dp2add", 3, 4⟩,
  ⟨"cube", 2, 4⟩,
  ⟨"max4", 1, 4⟩,
  ⟨"setp_eq_push", 2, 4⟩,
  ⟨"setp_ne_push", 2, 4⟩,
  ⟨"setp_gt_push", 2, 4⟩,
  ⟨"setp_ge_push", 2, 4⟩,
  ⟨"kill_eq", 2, 4⟩,
  ⟨"kill_gt", 2, 4⟩,
  ⟨"kill_ge", 2, 4⟩,
  ⟨"kill_ne", 2, 4⟩,
  ⟨"dst", 2, 4⟩,
  ⟨"maxa", 2, 4⟩,
  ⟨"", 0, 0⟩,
  ⟨"", 0, 0⟩]

/-- The fixed scalar opcode table alu_scalar_opcode_infos
(shader_translator.cc); entries 51..63 of the 0x40-entry C array are
zero-initialized. -/
def alu_scalar_opcode_infos : List AluOpcodeInfo := [
  ⟨"adds", 1, 2⟩,
  ⟨"adds_prev", 1, 1⟩,
  ⟨"muls", 1, 2⟩,
  ⟨"muls_prev", 1, 1⟩,
  ⟨"muls_prev2", 1, 2⟩,
  ⟨"maxs", 1, 2⟩,
  ⟨"mins", 1, 2⟩,
  ⟨"seqs", 1, 1⟩,
  ⟨"sgts", 1, 1⟩,
  ⟨"sges", 1, 1⟩,
  ⟨"snes", 1, 1⟩,
  ⟨"frcs", 1, 1⟩,
  ⟨"truncs", 1, 1⟩,
  ⟨"floors", 1, 1⟩,
  ⟨"exp", 1, 1⟩,
  ⟨"logc", 1, 1⟩,
  ⟨"log", 1, 1⟩,
  ⟨"rcpc", 1, 1⟩,
  ⟨"rcpf", 1, 1⟩,
  ⟨"rcp", 1, 1⟩,
  ⟨"rsqc", 1, 1⟩,
  ⟨"rsqf", 1, 1⟩,
  ⟨"rsq", 1, 1⟩,
  ⟨"maxas", 1, 2⟩,
  ⟨"maxasf", 1, 2⟩,
  ⟨"subs", 1, 2⟩,
  ⟨"subs_prev", 1, 1⟩,
  ⟨"setp_eq", 1, 1⟩,
  ⟨"setp_ne", 1, 1⟩,
  ⟨"setp_gt", 1, 1⟩,
  ⟨"setp_ge", 1, 1⟩,
  ⟨"setp_inv", 1, 1⟩,
  ⟨"setp_pop", 1, 1⟩,
  ⟨"setp_clr", 0, 0⟩,
  ⟨"setp_rstr", 1, 1⟩,
  ⟨"kills_eq", 1, 1⟩,
  ⟨"kills_gt", 1, 1⟩,
  ⟨"kills_ge", 1, 1⟩,
  ⟨"kills_ne", 1, 1⟩,
  ⟨"kills_one", 1, 1⟩,
  ⟨"sqrt", 1, 1⟩,
  ⟨"UNKNOWN", 0, 0⟩,
  ⟨"mulsc", 2, 1⟩,
  ⟨"mulsc", 2, 1⟩,
  ⟨"addsc", 2, 1⟩,
  ⟨"addsc", 2, 1⟩,
  ⟨"subsc", 2, 1⟩,
  ⟨"subsc", 2, 1⟩,
  ⟨"sin", 1, 1⟩,
  ⟨"cos", 1, 1⟩,
  ⟨"retain_prev", 0, 0⟩,
  ⟨"", 0, 0⟩, ⟨"", 0, 0⟩, ⟨"", 0, 0⟩, ⟨"", 0, 0⟩, ⟨"", 0, 0⟩, ⟨"", 0, 0⟩,
  ⟨"", 0, 0⟩, ⟨"", 0, 0⟩, ⟨"", 0, 0⟩, ⟨"", 0, 0⟩, ⟨"", 0, 0⟩, ⟨"", 0, 0⟩,
  ⟨"", 0, 0⟩]

/-- Translation of ParseAluInstructionOperand (shader_translator.cc): decodes
source operand i (1..3) with the opcode-determined swizzle component count.
The constant-addressing-control slot is positional, depending on which prior
operands were register-sourced. -/
def ParseAluInstructionOperand (op : AluInstruction) (i : Nat)
    (swizzle_component_count : Nat) : InstructionOperand :=
  let const_slot : Nat :=
    match i with
    | 2 => if op.src_is_temp 1 then 0 else 1
    | 3 => if op.src_is_temp 1 ∧ op.src_is_temp 2 then 0 else 1
    | _ => 0
  let is_negated := op.src_negate i
  let reg := op.src_reg i
  let base : InstructionOperand :=
    if op.src_is_temp i then
      { storage_source := .kRegister
        storage_index := reg &&& 0x1F
        is_absolute_value := decide ((reg &&& 0x80) = 0x80)
        storage_addressing_mode :=
          if (reg &&& 0x40) ≠ 0 then .kAddressRelative else .kStatic
        is_negated := is_negated }
    else
      { storage_source := .kConstantFloat
        storage_index := reg
        storage_addressing_mode :=
          if (const_slot = 0 ∧ op.is_const_0_addressed) ∨
              (const_slot = 1 ∧ op.is_const_1_addressed) then
            (if op.is_address_relative then .kAddressAbsolute
             else .kAddressRelative)
          else .kStatic
        is_absolute_value := op.abs_constants
        is_negated := is_negated }
  let swizzle := op.src_swizzle i
  let comps : List SwizzleSource :=
    if swizzle_component_count = 1 then
      [GetSwizzleFromComponentIndex (((swizzle >>> 6) + 3) &&& 0x3),
       .kY, .kZ, .kW]
    else if swizzle_component_count = 2 then
      [GetSwizzleFromComponentIndex (((swizzle >>> 6) + 3) &&& 0x3),
       GetSwizzleFromComponentIndex (swizzle &&& 0x3), .kZ, .kW]
    else if swizzle_component_count = 4 then
      [GetSwizzleFromComponentIndex (swizzle &&& 0x3),
       GetSwizzleFromComponentIndex (((swizzle >>> 2) + 1) &&& 0x3),
       GetSwizzleFromComponentIndex (((swizzle >>> 4) + 2) &&& 0x3),
       GetSwizzleFromComponentIndex (((swizzle >>> 6) + 3) &&& 0x3)]
    else [.kX, .kY, .kZ, .kW]
  { base with
    component_count := swizzle_component_count
    components := comps }

/-- Translation of ParseAluInstructionOperandSpecial (shader_translator.cc):
the packed-layout decode reconstructing scalar 2-operand sources. -/
def ParseAluInstructionOperandSpecial (op : AluInstruction)
    (storage_source : InstructionStorageSource) (reg : Nat) (negate : Bool)
    (const_slot : Nat) (component_index : Nat) : InstructionOperand :=
  let base : InstructionOperand :=
    if storage_source = .kRegister then
      { storage_source := storage_source
        storage_index := reg &&& 0x7F
        storage_addressing_mode := .kStatic }
    else
      { storage_source := storage_source
        storage_index := reg
        storage_addressing_mode :=
          if (const_slot = 0 ∧ op.is_const_0_addressed) ∨
              (const_slot = 1 ∧ op.is_const_1_addressed) then
            (if op.is_address_relative then .kAddressAbsolute
             else .kAddressRelative)
          else .kStatic }
  { base with
    is_negated := negate
    is_absolute_value := op.abs_constants
    component_count := 1
    components :=
      ([SwizzleSource.kX, .kY, .kZ, .kW]).set 0
        (GetSwizzleFromComponentIndex component_index) }

/-- Translation of ParseAluInstruction (shader_translator.cc).  The export
target decode depends on the shader type; both vector and scalar operations
export to vector_dest. -/
def ParseAluInstruction (op : AluInstruction) (shader_type : ShaderType) :
    ParsedAluInstruction :=
  let is_export := op.is_export
  let target_and_index : InstructionStorageTarget × Nat :=
    if is_export then
      let export_register := op.vector_dest
      if export_register = kExportRegisterExportAddress then
        (.kExportAddress, 0)
      else if kExportRegisterExportData0 ≤ export_register ∧
          export_register ≤ kExportRegisterExportData4 then
        (.kExportData, export_register - kExportRegisterExportData0)
      else if shader_type = .kVertex then
        if kExportRegisterVSInterpolator0 ≤ export_register ∧
            export_register ≤ kExportRegisterVSInterpolator15 then
          (.kInterpolator, export_register - kExportRegisterVSInterpolator0)
        else if export_register = kExportRegisterVSPosition then
          (.kPosition, 0)
        else if export_register = kExportRegisterVSPointSizeEdgeFlagKillVertex
            then
          (.kPointSizeEdgeFlagKillVertex, 0)
        else (.kNone, 0)
      else
        if kExportRegisterPSColor0 ≤ export_register ∧
            export_register ≤ kExportRegisterPSColor3 then
          (.kColor, export_register - kExportRegisterPSColor0)
        else if export_register = kExportRegisterPSDepth then
          (.kDepth, 0)
        else (.kNone, 0)
    else (.kRegister, 0)
  let storage_target := target_and_index.1
  let storage_index_export := target_and_index.2
  let vector_opcode_info :=
    alu_vector_opcode_infos.getD op.vector_opcode ⟨"", 0, 0⟩
  let constant_0_mask := op.constant_0_write_mask
  let constant_1_mask := op.constant_1_write_mask
  let vector_and_constant_result : InstructionResult :=
    { storage_target := storage_target
      storage_addressing_mode :=
        if is_export then .kStatic
        else if op.is_vector_dest_relative then .kAddressRelative
        else .kStatic
      storage_index := if is_export then storage_index_export
        else op.vector_dest
      is_clamped := op.vector_clamp
      original_write_mask :=
        op.vector_op_result_write_mask ||| constant_0_mask ||| constant_1_mask
      components :=
        (List.range 4).map fun i =>
          if constant_0_mask.testBit i then .k0
          else if constant_1_mask.testBit i then .k1
          else GetSwizzleFromComponentIndex i }
  let vector_operands :=
    (List.range vector_opcode_info.argument_count).map fun i =>
      ParseAluInstructionOperand op (i + 1)
        vector_opcode_info.src_swizzle_component_count
  let scalar_opcode_info :=
    alu_scalar_opcode_infos.getD op.scalar_opcode ⟨"", 0, 0⟩
  let scalar_result : InstructionResult :=
    { storage_target := storage_target
      storage_addressing_mode :=
        if is_export then .kStatic
        else if op.is_scalar_dest_relative then .kAddressRelative
        else .kStatic
      storage_index := if is_export then storage_index_export
        else op.scalar_dest
      is_clamped := op.scalar_clamp
      original_write_mask := op.scalar_op_result_write_mask
      components := [.kX, .kY, .kZ, .kW] }
  let scalar_operands : List InstructionOperand :=
    if scalar_opcode_info.argument_count = 0 then []
    else if scalar_opcode_info.argument_count = 1 then
      [ParseAluInstructionOperand op 3
        scalar_opcode_info.src_swizzle_component_count]
    else
      let src3_swizzle := op.src_swizzle 3
      let component_a := ((src3_swizzle >>> 6) + 3) &&& 0x3
      let component_b := src3_swizzle &&& 0x3
      let reg2 := (src3_swizzle &&& 0x3C) |||
        ((if op.src_is_temp 3 then 1 else 0) <<< 1) ||| (op.scalar_opcode &&& 1)
      let const_slot := if op.src_is_temp 1 ∨ op.src_is_temp 2 then 1 else 0
      [ParseAluInstructionOperandSpecial op .kConstantFloat (op.src_reg 3)
         (op.src_negate 3) 0 component_a,
       ParseAluInstructionOperandSpecial op .kRegister reg2
         (op.src_negate 3) const_slot component_b]
  { vector_opcode := op.vector_opcode
    scalar_opcode := op.scalar_opcode
    vector_opcode_name := vector_opcode_info.name
    scalar_opcode_name := scalar_opcode_info.name
    is_predicated := op.is_predicated
    predicate_condition := op.predicate_condition
    vector_and_constant_result := vector_and_constant_result
    scalar_result := scalar_result
    vector_operand_count := vector_opcode_info.argument_count
    vector_operands := vector_operands
    scalar_operand_count := scalar_opcode_info.argument_count
    scalar_operands := scalar_operands }

/-- Translation of ParsedAluInstruction::IsScalarOpDefaultNop
(shader_translator.cc). -/
def ParsedAluInstruction.IsScalarOpDefaultNop (i : ParsedAluInstruction) :
    Bool :=
  if i.scalar_opcode ≠ kAluScalarOpcodeRetainPrev ∨
      i.scalar_result.original_write_mask ≠ 0 ∨
      i.scalar_result.is_clamped = true then
    false
  else if i.scalar_result.storage_target = .kRegister then
    if i.scalar_result.storage_index ≠ 0 ∨
        i.scalar_result.storage_addressing_mode ≠ .kStatic then
      false
    else true
  else true

/-- The repeated operand condition of IsVectorOpDefaultNop
(shader_translator.cc): the operand is register 0, statically addressed,
unmodified, with the standard swizzle. -/
def aluOperandIsIdentityR0 (o : InstructionOperand) : Bool :=
  decide (o.storage_source = .kRegister ∧ o.storage_index = 0 ∧
    o.storage_addressing_mode = .kStatic ∧ o.is_negated = false ∧
    o.is_absolute_value = false ∧ o.IsStandardSwizzle = true)

/-- Translation of ParsedAluInstruction::IsVectorOpDefaultNop
(shader_translator.cc).  For non-register (export) targets the vector
operation is kept whenever the scalar operation is itself a default nop, so
that the export destination remains stated in the microcode. -/
def ParsedAluInstruction.IsVectorOpDefaultNop (i : ParsedAluInstruction) :
    Bool :=
  if i.vector_opcode ≠ kAluVectorOpcodeMax ∨
      i.vector_and_constant_result.original_write_mask ≠ 0 ∨
      i.vector_and_constant_result.is_clamped = true ∨
      aluOperandIsIdentityR0 (i.vector_operands.getD 0 default) = false ∨
      aluOperandIsIdentityR0 (i.vector_operands.getD 1 default) = false then
    false
  else if i.vector_and_constant_result.storage_target = .kRegister then
    if i.vector_and_constant_result.storage_index ≠ 0 ∨
        i.vector_and_constant_result.storage_addressing_mode ≠ .kStatic then
      false
    else true
  else if i.IsScalarOpDefaultNop then false
  else true

/-- Translation of ParsedAluInstruction::IsNop (shader_translator.cc). -/
def ParsedAluInstruction.IsNop (i : ParsedAluInstruction) : Bool :=
  decide (i.scalar_opcode = kAluScalarOpcodeRetainPrev ∧
    i.scalar_result.GetUsedWriteMask = 0 ∧
    i.vector_and_constant_result.GetUsedWriteMask = 0 ∧
    AluVectorOpHasSideEffects i.vector_opcode = false)

/-- Translation of ParsedAluInstruction::GetMemExportStreamConstant
(shader_translator.cc): the index of the static, unmodified float constant
third operand of a full-mask unclamped mad into the export address, or
UINT32_MAX when it cannot be extracted. -/
def ParsedAluInstruction.GetMemExportStreamConstant
    (i : ParsedAluInstruction) : Nat :=
  if i.vector_and_constant_result.storage_target = .kExportAddress ∧
      i.vector_opcode = kAluVectorOpcodeMad ∧
      i.vector_and_constant_result.GetUsedResultComponents = 0b1111 ∧
      i.vector_and_constant_result.is_clamped = false ∧
      (i.vector_operands.getD 2 default).storage_source = .kConstantFloat ∧
      (i.vector_operands.getD 2 default).storage_addressing_mode = .kStatic ∧
      (i.vector_operands.getD 2 default).IsStandardSwizzle = true ∧
      (i.vector_operands.getD 2 default).is_negated = false ∧
      (i.vector_operands.getD 2 default).is_absolute_value = false then
    (i.vector_operands.getD 2 default).storage_index
  else UINT32_MAX

/-- Modelled from the spec: Shader::kMaxMemExports (shader.h, outside src).
The spec fixes only that memory-export slots are indexed 0..kMaxMemExports-1
with the eA bits held in a 32-bit mask; the header value 16 is used. -/
def kMaxMemExports : Nat := 16

/-- Ordered-set insertion for the std::set members (label_addresses_ and
memexport_stream_constants_): sorted, duplicate-free list. -/
def insertSet (x : Nat) : List Nat → List Nat
  | [] => [x]
  | y :: ys =>
    if x < y then x :: y :: ys
    else if x = y then y :: ys
    else y :: insertSet x ys

/-- Population count of a 64-bit value (xe::bit_count). -/
def bitCount64 (n : Nat) : Nat :=
  (List.range 64).foldl (fun acc i => acc + (if n.testBit i then 1 else 0)) 0

/-- Modelled from the spec: the microcode buffer together with the decode of
its words.  UnpackControlFlowInstructions and the reinterpretations of word
triples as fetch/ALU instructions live in ucode.h (outside src); following
the spec, the buffer is abstracted as the word count plus maps from pair
index / word-triple offset to the decoded raw records. -/
structure Ucode where
  size : Nat := 0
  cfAt : Nat → ControlFlowInstruction × ControlFlowInstruction :=
    fun _ => ({}, {})
  fetchOpcodeAt : Nat → FetchOpcode := fun _ => .kVertexFetch
  vfetchAt : Nat → VertexFetchInstruction := fun _ => {}
  tfetchAt : Nat → TextureFetchInstruction := fun _ => {}
  aluAt : Nat → AluInstruction := fun _ => {}

/-- Constant register usage map (shader.h ConstantRegisterMap): float usage as
four 64-bit words plus a count, bool usage as four 32-bit words, loop usage
as one 32-bit word. -/
structure ConstantRegisterMap where
  float_bitmap : List Nat := [0, 0, 0, 0]
  float_count : Nat := 0
  float_dynamic_addressing : Bool := false
  bool_bitmap : List Nat := [0, 0, 0, 0]
  loop_bitmap : Nat := 0
deriving DecidableEq, Repr

/-- One vertex binding attribute (shader.h Shader::VertexBinding::Attribute). -/
structure VertexBindingAttribute where
  fetch_instr : ParsedVertexFetchInstruction := {}
deriving DecidableEq, Repr

/-- One vertex binding (shader.h Shader::VertexBinding): one entry per
distinct vertex fetch constant. -/
structure VertexBinding where
  binding_index : Nat := 0
  fetch_constant : Nat := 0
  stride_words : Nat := 0
  attributes : List VertexBindingAttribute := []
deriving DecidableEq, Repr

/-- One texture binding (shader.h Shader::TextureBinding): one entry per
texture fetch instruction that performs an actual fetch. -/
structure TextureBinding where
  binding_index : Nat := 0
  fetch_constant : Nat := 0
  fetch_instr : ParsedTextureFetchInstruction := {}
deriving DecidableEq, Repr

/-- The Shader object state touched by AnalyzeUcode: the microcode buffer and
shader type inputs, and the analysis result members, at their constructor
defaults. -/
structure Shader where
  ucode : Ucode := {}
  shader_type : ShaderType := .kVertex
  is_ucode_analyzed : Bool := false
  cf_pair_index_bound : Nat := 0
  label_addresses : List Nat := []
  constant_register_map : ConstantRegisterMap := {}
  register_static_address_bound : Nat := 0
  uses_register_dynamic_addressing : Bool := false
  kills_pixels : Bool := false
  writes_color_targets : Nat := 0
  writes_depth : Bool := false
  memexport_eM_written : List Nat := List.replicate kMaxMemExports 0
  memexport_stream_constants : List Nat := []
  vertex_bindings : List VertexBinding := []
  texture_bindings : List TextureBinding := []

/-- Translation of Shader::GatherOperandInformation (shader_translator.cc):
a register operand bumps the static high-water mark or the dynamic flag; a
float constant operand marks the usage bitmap or the dynamic-addressing
flag. -/
def Shader.GatherOperandInformation (s : Shader)
    (operand : InstructionOperand) : Shader :=
  match operand.storage_source with
  | .kRegister =>
    if operand.storage_addressing_mode = .kStatic then
      { s with
        register_static_address_bound :=
          max s.register_static_address_bound (operand.storage_index + 1) }
    else { s with uses_register_dynamic_addressing := true }
  | .kConstantFloat =>
    if operand.storage_addressing_mode = .kStatic then
      { s with constant_register_map :=
        { s.constant_register_map with
          float_bitmap :=
            s.constant_register_map.float_bitmap.set
              (operand.storage_index >>> 6)
              ((s.constant_register_map.float_bitmap.getD
                  (operand.storage_index >>> 6) 0) |||
                (1 <<< (operand.storage_index &&& 63))) } }
    else
      { s with constant_register_map :=
        { s.constant_register_map with float_dynamic_addressing := true } }
  | _ => s

/-- Translation of Shader::GatherFetchResultInformation
(shader_translator.cc); fetch results always target registers. -/
def Shader.GatherFetchResultInformation (s : Shader)
    (result : InstructionResult) : Shader :=
  if result.GetUsedWriteMask = 0 then s
  else if result.storage_addressing_mode = .kStatic then
    { s with
      register_static_address_bound :=
        max s.register_static_address_bound (result.storage_index + 1) }
  else { s with uses_register_dynamic_addressing := true }

/-- Translation of Shader::GatherAluResultInformation
(shader_translator.cc): register targets update the register accumulators,
export-data targets mark the per-slot eM mask, color and depth targets set
the capability flags. -/
def Shader.GatherAluResultInformation (s : Shader)
    (result : InstructionResult) (memexport_alloc_current_count : Nat) :
    Shader :=
  if result.GetUsedWriteMask = 0 then s
  else
    match result.storage_target with
    | .kRegister =>
      if result.storage_addressing_mode = .kStatic then
        { s with
          register_static_address_bound :=
            max s.register_static_address_bound (result.storage_index + 1) }
      else { s with uses_register_dynamic_addressing := true }
    | .kExportData =>
      if 0 < memexport_alloc_current_count ∧
          memexport_alloc_current_count ≤ kMaxMemExports then
        { s with
          memexport_eM_written :=
            s.memexport_eM_written.set (memexport_alloc_current_count - 1)
              ((s.memexport_eM_written.getD
                  (memexport_alloc_current_count - 1) 0) |||
                (1 <<< result.storage_index)) }
      else s
    | .kColor =>
      { s with
        writes_color_targets :=
          s.writes_color_targets ||| (1 <<< result.storage_index) }
    | .kDepth => { s with writes_depth := true }
    | _ => s

/-- The existing-binding search loop of Shader::GatherVertexFetchInformation
(shader_translator.cc): the attribute is appended to the first binding with
the given fetch constant, then the loop breaks. -/
def appendAttribToFirstBinding (fetch_constant : Nat)
    (attrib : VertexBindingAttribute) :
    List VertexBinding → List VertexBinding
  | [] => []
  | vb :: rest =>
    if vb.fetch_constant = fetch_constant then
      { vb with attributes := vb.attributes ++ [attrib] } :: rest
    else vb :: appendAttribToFirstBinding fetch_constant attrib rest

/-- Translation of Shader::GatherVertexFetchInformation
(shader_translator.cc).  Returns the updated shader and the updated
previous-full-vertex-fetch cache.  An instruction whose result has no used
components returns before operand gathering and binding setup. -/
def Shader.GatherVertexFetchInformation (s : Shader)
    (op previous_vfetch_full : VertexFetchInstruction) :
    Shader × VertexFetchInstruction :=
  let parsed := ParseVertexFetchInstruction op previous_vfetch_full
  let fetch_instr := parsed.1
  let previous_out := if parsed.2 then op else previous_vfetch_full
  let s := s.GatherFetchResultInformation fetch_instr.result
  if fetch_instr.result.GetUsedResultComponents = 0 then (s, previous_out)
  else
    let s := fetch_instr.operands.foldl Shader.GatherOperandInformation s
    let s :=
      if (s.vertex_bindings.find? fun vb =>
            decide (vb.fetch_constant = op.fetch_constant_index)).isSome then
        { s with
          vertex_bindings :=
            appendAttribToFirstBinding op.fetch_constant_index
              { fetch_instr := fetch_instr } s.vertex_bindings }
      else
        { s with
          vertex_bindings := s.vertex_bindings ++
            [{ binding_index := s.vertex_bindings.length
               fetch_constant := op.fetch_constant_index
               stride_words := fetch_instr.attributes.stride
               attributes := [{ fetch_instr := fetch_instr }] }] }
    (s, previous_out)

/-- Translation of Shader::GatherTextureFetchInformation
(shader_translator.cc).  Returns the updated shader and the updated
unique-texture-binding counter.  The LOD/gradient setter opcodes return
before any binding is created; otherwise the binding index is reused from
the first binding with the same fetch constant or freshly allocated. -/
def Shader.GatherTextureFetchInformation (s : Shader)
    (op : TextureFetchInstruction) (unique_texture_bindings : Nat) :
    Shader × Nat :=
  let fetch_instr := ParseTextureFetchInstruction op
  let s := s.GatherFetchResultInformation fetch_instr.result
  let s := fetch_instr.operands.foldl Shader.GatherOperandInformation s
  match op.opcode with
  | .kSetTextureLod | .kSetTextureGradientsHorz | .kSetTextureGradientsVert =>
    (s, unique_texture_bindings)
  | _ =>
    let fetch_constant := (fetch_instr.operands.getD 1 default).storage_index
    match s.texture_bindings.find? fun tb =>
        decide (tb.fetch_constant = fetch_constant) with
    | some tb =>
      ({ s with texture_bindings := s.texture_bindings ++
          [{ binding_index := tb.binding_index
             fetch_constant := fetch_constant
             fetch_instr := fetch_instr }] },
       unique_texture_bindings)
    | none =>
      ({ s with texture_bindings := s.texture_bindings ++
          [{ binding_index := unique_texture_bindings
             fetch_constant := fetch_constant
             fetch_instr := fetch_instr }] },
       unique_texture_bindings + 1)

/-- Translation of Shader::GatherAluInstructionInformation
(shader_translator.cc).  Returns the updated shader, the updated eA-written
mask, and the (externally logged) non-fatal diagnostics.  The eA bit for the
current allocation and the stream constant are recorded only when the stream
constant is extractable; an inextractable stream constant is a logged
diagnostic. -/
def Shader.GatherAluInstructionInformation (s : Shader)
    (op : AluInstruction) (memexport_alloc_current_count : Nat)
    (memexport_eA_written : Nat) : Shader × Nat × List String :=
  let instr := ParseAluInstruction op s.shader_type
  let s := { s with kills_pixels := s.kills_pixels ||
      AluVectorOpcodeIsKill op.vector_opcode ||
      AluScalarOpcodeIsKill op.scalar_opcode }
  let s := s.GatherAluResultInformation instr.vector_and_constant_result
    memexport_alloc_current_count
  let s := s.GatherAluResultInformation instr.scalar_result
    memexport_alloc_current_count
  let s := instr.vector_operands.foldl Shader.GatherOperandInformation s
  let s := instr.scalar_operands.foldl Shader.GatherOperandInformation s
  if instr.vector_and_constant_result.storage_target = .kExportAddress ∧
      0 < memexport_alloc_current_count ∧
      memexport_alloc_current_count ≤ kMaxMemExports then
    let memexport_stream_constant := instr.GetMemExportStreamConstant
    if memexport_stream_constant ≠ UINT32_MAX then
      ({ s with memexport_stream_constants :=
           insertSet memexport_stream_constant s.memexport_stream_constants },
       memexport_eA_written ||| (1 <<< (memexport_alloc_current_count - 1)),
       [])
    else
      (s, memexport_eA_written,
       ["ShaderTranslator::GatherAluInstructionInformation: Could not " ++
        "extract memexport stream constant index"])
  else (s, memexport_eA_written, [])

/-- The mutable locals of the gather pass of Shader::AnalyzeUcode
(shader_translator.cc): previous_vfetch_full, unique_texture_bindings,
memexport_alloc_count and memexport_eA_written. -/
structure GatherLocals where
  previous_vfetch_full : VertexFetchInstruction := {}
  unique_texture_bindings : Nat := 0
  memexport_alloc_count : Nat := 0
  memexport_eA_written : Nat := 0
deriving DecidableEq, Repr

/-- One slot of the exec sub-loop of Shader::GatherExecInformation
(shader_translator.cc): the low sequence bit selects fetch over ALU, and the
5-bit fetch opcode field distinguishes vertex from texture fetches. -/
def Shader.gatherExecSlot (s : Shader) (locals : GatherLocals)
    (instr_offset sequence : Nat) : Shader × GatherLocals :=
  if sequence &&& 0b01 ≠ 0 then
    if s.ucode.fetchOpcodeAt instr_offset = .kVertexFetch then
      let r := s.GatherVertexFetchInformation (s.ucode.vfetchAt instr_offset)
        locals.previous_vfetch_full
      (r.1, { locals with previous_vfetch_full := r.2 })
    else
      let r := s.GatherTextureFetchInformation (s.ucode.tfetchAt instr_offset)
        locals.unique_texture_bindings
      (r.1, { locals with unique_texture_bindings := r.2 })
  else
    let r := s.GatherAluInstructionInformation (s.ucode.aluAt instr_offset)
      locals.memexport_alloc_count locals.memexport_eA_written
    (r.1, { locals with memexport_eA_written := r.2.1 })

/-- The exec sub-loop of Shader::GatherExecInformation (shader_translator.cc),
by remaining instruction count; the sequence field shifts right by two per
consumed instruction. -/
def Shader.gatherExecLoop (s : Shader) (locals : GatherLocals)
    (instr_offset sequence : Nat) : Nat → Shader × GatherLocals
  | 0 => (s, locals)
  | n + 1 =>
    let r := s.gatherExecSlot locals instr_offset sequence
    Shader.gatherExecLoop r.1 r.2 (instr_offset + 1) (sequence >>> 2) n

/-- Translation of Shader::GatherExecInformation (shader_translator.cc). -/
def Shader.GatherExecInformation (s : Shader) (instr : ParsedExecInstruction)
    (locals : GatherLocals) : Shader × GatherLocals :=
  s.gatherExecLoop locals instr.instruction_address instr.sequence
    instr.instruction_count

/-- The bool-constant bitmap update at the end of the per-instruction switch
of Shader::AnalyzeUcode (shader_translator.cc). -/
def Shader.markBoolConstant (s : Shader) (bool_constant_index : Nat) :
    Shader :=
  if bool_constant_index ≠ UINT32_MAX then
    { s with constant_register_map :=
      { s.constant_register_map with
        bool_bitmap :=
          s.constant_register_map.bool_bitmap.set (bool_constant_index / 32)
            ((s.constant_register_map.bool_bitmap.getD
                (bool_constant_index / 32) 0) |||
              (1 <<< (bool_constant_index % 32))) } }
  else s

/-- The per-control-flow-instruction switch of the gather loop of
Shader::AnalyzeUcode (shader_translator.cc). -/
def Shader.analyzeCfInstr (s : Shader) (locals : GatherLocals)
    (cf : ControlFlowInstruction) (cf_index : Nat) : Shader × GatherLocals :=
  let r : Shader × GatherLocals × Nat :=
    match cf.opcode with
    | .kNop => (s, locals, UINT32_MAX)
    | .kExec | .kExecEnd =>
      let instr := ParseControlFlowExec cf cf_index
      let g := s.GatherExecInformation instr locals
      (g.1, g.2, UINT32_MAX)
    | .kCondExec | .kCondExecEnd | .kCondExecPredClean
    | .kCondExecPredCleanEnd =>
      let bool_constant_index := cf.bool_address
      let instr := ParseControlFlowCondExec cf cf_index
      let g := s.GatherExecInformation instr locals
      (g.1, g.2, bool_constant_index)
    | .kCondExecPred | .kCondExecPredEnd =>
      let instr := ParseControlFlowCondExecPred cf cf_index
      let g := s.GatherExecInformation instr locals
      (g.1, g.2, UINT32_MAX)
    | .kLoopStart =>
      let instr := ParseControlFlowLoopStart cf cf_index
      ({ s with constant_register_map :=
          { s.constant_register_map with
            loop_bitmap := s.constant_register_map.loop_bitmap |||
              (1 <<< instr.loop_constant_index) } },
       locals, UINT32_MAX)
    | .kLoopEnd =>
      let instr := ParseControlFlowLoopEnd cf cf_index
      ({ s with constant_register_map :=
          { s.constant_register_map with
            loop_bitmap := s.constant_register_map.loop_bitmap |||
              (1 <<< instr.loop_constant_index) } },
       locals, UINT32_MAX)
    | .kCondCall =>
      let instr := ParseControlFlowCondCall cf cf_index
      (s, locals,
       if instr.type = .kConditional then instr.bool_constant_index
       else UINT32_MAX)
    | .kReturn =>
      let _ := ParseControlFlowReturn cf cf_index
      (s, locals, UINT32_MAX)
    | .kCondJmp =>
      let instr := ParseControlFlowCondJmp cf cf_index
      (s, locals,
       if instr.type = .kConditional then instr.bool_constant_index
       else UINT32_MAX)
    | .kAlloc =>
      let instr := ParseControlFlowAlloc cf cf_index
        (decide (s.shader_type = .kVertex))
      (s,
       if instr.type = .kMemory then
         { locals with memexport_alloc_count :=
             locals.memexport_alloc_count + 1 }
       else locals,
       UINT32_MAX)
    | .kMarkVsFetchDone => (s, locals, UINT32_MAX)
  (r.1.markBoolConstant r.2.2, r.2.1)

/-- One control-flow pair of the gather loop of Shader::AnalyzeUcode
(shader_translator.cc): instruction index = pair index times two plus slot. -/
def Shader.gatherPair (sl : Shader × GatherLocals) (i : Nat) :
    Shader × GatherLocals :=
  let cf_ab := sl.1.ucode.cfAt i
  let r := sl.1.analyzeCfInstr sl.2 cf_ab.1 (i * 2)
  r.1.analyzeCfInstr r.2 cf_ab.2 (i * 2 + 1)

/-- The gather loop of Shader::AnalyzeUcode (shader_translator.cc) over the
settled control-flow pair bound. -/
def Shader.gatherPhase (s : Shader) : Shader × GatherLocals :=
  (List.range s.cf_pair_index_bound).foldl Shader.gatherPair (s, {})

/-- One control flow instruction of the bound-discovery scan of
Shader::AnalyzeUcode (shader_translator.cc): an exec-family opcode clamps the
bound downward to its address, and call/jump/loop instructions contribute
their address to the label set. -/
def scanCfInstrStep (cf : ControlFlowInstruction) (bl : Nat × List Nat) :
    Nat × List Nat :=
  let bound := if IsControlFlowOpcodeExec cf.opcode
    then min bl.1 cf.address else bl.1
  let labels :=
    match cf.opcode with
    | .kCondCall => insertSet cf.address bl.2
    | .kCondJmp => insertSet cf.address bl.2
    | .kLoopStart => insertSet cf.address bl.2
    | .kLoopEnd => insertSet cf.address bl.2
    | _ => bl.2
  (bound, labels)

/-- The bound-discovery loop of Shader::AnalyzeUcode (shader_translator.cc):
`for (i = 0; i < cf_pair_index_bound_; ++i)` where the loop condition re-reads
the bound member that the body clamps downward.  The fuel argument is the
initial bound; since the bound never grows and i increments, fuel at least
bound minus i makes this equal to the source loop. -/
def scanCfPairs (u : Ucode) : Nat → Nat → Nat → List Nat → Nat × List Nat
  | 0, _, bound, labels => (bound, labels)
  | fuel + 1, i, bound, labels =>
    if i < bound then
      let cf_ab := u.cfAt i
      let bl := scanCfInstrStep cf_ab.2 (scanCfInstrStep cf_ab.1
        (bound, labels))
      scanCfPairs u fuel (i + 1) bl.1 bl.2
    else (bound, labels)

/-- One index of the memexport cleanup loop of Shader::AnalyzeUcode
(shader_translator.cc): a slot whose eA bit was never written has its eM mask
cleared; a slot with an eA bit but no eM writes has its eA bit cleared. -/
def memexportCleanupStep (st : Nat × List Nat) (i : Nat) : Nat × List Nat :=
  if ¬ st.1.testBit i then (st.1, st.2.set i 0)
  else if st.2.getD i 0 = 0 then
    (st.1 &&& (UINT32_MAX ^^^ (1 <<< i)), st.2)
  else st

/-- The memexport cleanup loop of Shader::AnalyzeUcode
(shader_translator.cc) over all kMaxMemExports slots. -/
def memexportCleanup (eA : Nat) (eM : List Nat) : Nat × List Nat :=
  (List.range kMaxMemExports).foldl memexportCleanupStep (eA, eM)

/-- The float-constant count finalization of Shader::AnalyzeUcode
(shader_translator.cc): with dynamic float addressing all 256 constants are
potentially referenced and the bitmap is saturated; otherwise the count is
the population count of the usage bitmap. -/
def Shader.finishFloatConstants (s : Shader) : Shader :=
  if s.constant_register_map.float_dynamic_addressing then
    { s with constant_register_map :=
      { s.constant_register_map with
        float_count := 256
        float_bitmap := List.replicate 4 (2 ^ 64 - 1) } }
  else
    { s with constant_register_map :=
      { s.constant_register_map with
        float_count :=
          (s.constant_register_map.float_bitmap.map bitCount64).sum } }

/-- The body of Shader::AnalyzeUcode (shader_translator.cc) for a shader not
yet analyzed: bound-discovery and label scan, gather pass over the settled
bound, float constant finalization, memexport cleanup, and the analyzed
flag.  The second component is the final value of the local
memexport_eA_written. -/
def Shader.analyzeBody (s : Shader) : Shader × Nat :=
  let bound0 := s.ucode.size / 3
  let scanned := scanCfPairs s.ucode bound0 0 bound0 s.label_addresses
  let s1 := { s with
    cf_pair_index_bound := scanned.1
    label_addresses := scanned.2 }
  let g := s1.gatherPhase
  let s2 := g.1.finishFloatConstants
  let cleaned := memexportCleanup g.2.memexport_eA_written
    s2.memexport_eM_written
  let s3 := { s2 with memexport_eM_written := cleaned.2 }
  let s4 := if cleaned.1 = 0 then
      { s3 with memexport_stream_constants := [] }
    else s3
  ({ s4 with is_ucode_analyzed := true }, cleaned.1)

/-- Translation of Shader::AnalyzeUcode (shader_translator.cc) together with
the final local eA mask; an already analyzed shader returns immediately. -/
def Shader.analyzeUcodeCore (s : Shader) : Shader × Nat :=
  if s.is_ucode_analyzed then (s, 0) else s.analyzeBody

/-- Translation of Shader::AnalyzeUcode (shader_translator.cc). -/
def Shader.AnalyzeUcode (s : Shader) : Shader :=
  s.analyzeUcodeCore.1

/-- A translation error (shader.h Shader::Error): message plus fatality. -/
structure ShaderError where
  message : String := ""
  is_fatal : Bool := false
deriving DecidableEq, Repr

/-- A translation result (shader.h Shader::Translation): error list, output
binary, and the translated/valid flags. -/
structure Translation where
  errors : List ShaderError := []
  translated_binary : List Nat := []
  is_translated : Bool := false
  is_valid : Bool := false
deriving DecidableEq, Repr

/-- The backend hook interface of ShaderTranslator (shader_translator.h,
virtual methods overridden per target language), over an abstract backend
state.  Hooks that may emit translation errors return the error list to
append. -/
structure Backend (σ : Type) where
  GetModificationRegisterCount : Nat := 0
  StartTranslation : σ → σ := fun st => st
  PreProcessControlFlowInstructions :
    σ → List ControlFlowInstruction → σ := fun st _ => st
  ProcessLabel : σ → Nat → σ := fun st _ => st
  ProcessControlFlowInstructionBegin : σ → Nat → σ := fun st _ => st
  ProcessControlFlowInstructionEnd : σ → Nat → σ := fun st _ => st
  ProcessControlFlowNopInstruction : σ → Nat → σ := fun st _ => st
  ProcessExecInstructionBegin : σ → ParsedExecInstruction → σ :=
    fun st _ => st
  ProcessExecInstructionEnd : σ → ParsedExecInstruction → σ := fun st _ => st
  ProcessVertexFetchInstruction :
    σ → ParsedVertexFetchInstruction → σ × List ShaderError :=
    fun st _ => (st, [])
  ProcessTextureFetchInstruction :
    σ → ParsedTextureFetchInstruction → σ × List ShaderError :=
    fun st _ => (st, [])
  ProcessAluInstruction :
    σ → ParsedAluInstruction → σ × List ShaderError := fun st _ => (st, [])
  ProcessLoopStartInstruction : σ → ParsedLoopStartInstruction → σ :=
    fun st _ => st
  ProcessLoopEndInstruction : σ → ParsedLoopEndInstruction → σ :=
    fun st _ => st
  ProcessCallInstruction : σ → ParsedCallInstruction → σ := fun st _ => st
  ProcessReturnInstruction : σ → ParsedReturnInstruction → σ := fun st _ => st
  ProcessJumpInstruction : σ → ParsedJumpInstruction → σ := fun st _ => st
  ProcessAllocInstruction : σ → ParsedAllocInstruction → σ := fun st _ => st
  CompleteTranslation : σ → List Nat := fun _ => []
  PostTranslation : σ → Translation → Translation := fun _ t => t

/-- The per-translation scratch state of ShaderTranslator: the backend state,
the error list, and the previous-full-vertex-fetch cache cleared by Reset. -/
structure TranslatorScratch (σ : Type) where
  st : σ
  errors : List ShaderError := []
  previous_vfetch_full : VertexFetchInstruction := {}

/-- One slot of the exec sub-loop of
ShaderTranslator::TranslateExecInstructions (shader_translator.cc), calling
the backend process hooks. -/
def translateExecSlot {σ : Type} (b : Backend σ) (shader : Shader)
    (sc : TranslatorScratch σ) (instr_offset sequence : Nat) :
    TranslatorScratch σ :=
  if sequence &&& 0b01 ≠ 0 then
    if shader.ucode.fetchOpcodeAt instr_offset = .kVertexFetch then
      let op := shader.ucode.vfetchAt instr_offset
      let parsed := ParseVertexFetchInstruction op sc.previous_vfetch_full
      let previous_out := if parsed.2 then op else sc.previous_vfetch_full
      let r := b.ProcessVertexFetchInstruction sc.st parsed.1
      { sc with
        st := r.1
        errors := sc.errors ++ r.2
        previous_vfetch_full := previous_out }
    else
      let r := b.ProcessTextureFetchInstruction sc.st
        (ParseTextureFetchInstruction (shader.ucode.tfetchAt instr_offset))
      { sc with st := r.1, errors := sc.errors ++ r.2 }
  else
    let r := b.ProcessAluInstruction sc.st
      (ParseAluInstruction (shader.ucode.aluAt instr_offset)
        shader.shader_type)
    { sc with st := r.1, errors := sc.errors ++ r.2 }

/-- The exec sub-loop of ShaderTranslator::TranslateExecInstructions
(shader_translator.cc), by remaining instruction count. -/
def translateExecLoop {σ : Type} (b : Backend σ) (shader : Shader)
    (sc : TranslatorScratch σ) (instr_offset sequence : Nat) :
    Nat → TranslatorScratch σ
  | 0 => sc
  | n + 1 =>
    let sc := translateExecSlot b shader sc instr_offset sequence
    translateExecLoop b shader sc (instr_offset + 1) (sequence >>> 2) n

/-- Translation of ShaderTranslator::TranslateExecInstructions
(shader_translator.cc). -/
def TranslateExecInstructions {σ : Type} (b : Backend σ) (shader : Shader)
    (sc : TranslatorScratch σ) (instr : ParsedExecInstruction) :
    TranslatorScratch σ :=
  let sc := { sc with st := b.ProcessExecInstructionBegin sc.st instr }
  let sc := translateExecLoop b shader sc instr.instruction_address
    instr.sequence instr.instruction_count
  { sc with st := b.ProcessExecInstructionEnd sc.st instr }

/-- Translation of ShaderTranslator::TranslateControlFlowInstruction
(shader_translator.cc). -/
def TranslateControlFlowInstruction {σ : Type} (b : Backend σ)
    (shader : Shader) (sc : TranslatorScratch σ)
    (cf : ControlFlowInstruction) (cf_index : Nat) : TranslatorScratch σ :=
  match cf.opcode with
  | .kNop =>
    { sc with st := b.ProcessControlFlowNopInstruction sc.st cf_index }
  | .kExec | .kExecEnd =>
    TranslateExecInstructions b shader sc (ParseControlFlowExec cf cf_index)
  | .kCondExec | .kCondExecEnd | .kCondExecPredClean
  | .kCondExecPredCleanEnd =>
    TranslateExecInstructions b shader sc
      (ParseControlFlowCondExec cf cf_index)
  | .kCondExecPred | .kCondExecPredEnd =>
    TranslateExecInstructions b shader sc
      (ParseControlFlowCondExecPred cf cf_index)
  | .kLoopStart =>
    let st := b.ProcessLoopStartInstruction sc.st
      (ParseControlFlowLoopStart cf cf_index)
    { sc with st := st }
  | .kLoopEnd =>
    let st := b.ProcessLoopEndInstruction sc.st
      (ParseControlFlowLoopEnd cf cf_index)
    { sc with st := st }
  | .kCondCall =>
    let st := b.ProcessCallInstruction sc.st
      (ParseControlFlowCondCall cf cf_index)
    { sc with st := st }
  | .kReturn =>
    let st := b.ProcessReturnInstruction sc.st
      (ParseControlFlowReturn cf cf_index)
    { sc with st := st }
  | .kCondJmp =>
    let st := b.ProcessJumpInstruction sc.st
      (ParseControlFlowCondJmp cf cf_index)
    { sc with st := st }
  | .kAlloc =>
    let st := b.ProcessAllocInstruction sc.st
      (ParseControlFlowAlloc cf cf_index
        (decide (shader.shader_type = .kVertex)))
    { sc with st := st }
  | .kMarkVsFetchDone => sc

/-- One control flow instruction slot of the main walk of
ShaderTranslator::TranslateAnalyzedShader (shader_translator.cc): label hook
when the position was recorded as a branch target, then the begin hook,
instruction dispatch, and the end hook. -/
def translateCfSlot {σ : Type} (b : Backend σ) (shader : Shader)
    (sc : TranslatorScratch σ) (cf : ControlFlowInstruction)
    (cf_index : Nat) : TranslatorScratch σ :=
  let sc :=
    if shader.label_addresses.contains cf_index then
      { sc with st := b.ProcessLabel sc.st cf_index }
    else sc
  let sc :=
    { sc with st := b.ProcessControlFlowInstructionBegin sc.st cf_index }
  let sc := TranslateControlFlowInstruction b shader sc cf cf_index
  { sc with st := b.ProcessControlFlowInstructionEnd sc.st cf_index }

/-- Translation of ShaderTranslator::TranslateAnalyzedShader
(shader_translator.cc).  Returns the boolean return value, the translation
result, and the (externally logged) error messages.  A shader whose ucode
has not been analyzed fails fast: the call logs, returns false, and leaves
the translation untouched. -/
def TranslateAnalyzedShader {σ : Type} (b : Backend σ) (st0 : σ)
    (shader : Shader) (translation : Translation) :
    Bool × Translation × List String :=
  if shader.is_ucode_analyzed = false then
    (false, translation,
     ["AnalyzeUcode must be done on the shader before translation"])
  else
    let register_count :=
      if shader.uses_register_dynamic_addressing then
        max shader.register_static_address_bound
          b.GetModificationRegisterCount
      else shader.register_static_address_bound
    let _ := register_count
    let sc : TranslatorScratch σ :=
      { st := b.StartTranslation st0
        errors := []
        previous_vfetch_full := {} }
    let cf_instructions :=
      (List.range shader.cf_pair_index_bound).foldl
        (fun acc i =>
          acc ++ [(shader.ucode.cfAt i).1, (shader.ucode.cfAt i).2]) []
    let sc := { sc with
      st := b.PreProcessControlFlowInstructions sc.st cf_instructions }
    let sc :=
      (List.range shader.cf_pair_index_bound).foldl
        (fun sc i =>
          let cf_ab := shader.ucode.cfAt i
          let sc := translateCfSlot b shader sc cf_ab.1 (i * 2)
          translateCfSlot b shader sc cf_ab.2 (i * 2 + 1))
        sc
    let translation := { translation with
      errors := sc.errors
      translated_binary := b.CompleteTranslation sc.st
      is_translated := true }
    let is_valid := translation.errors.all fun e => !e.is_fatal
    let translation := { translation with is_valid := is_valid }
    let translation := b.PostTranslation sc.st translation
    (translation.is_valid, translation, [])

/-- The exec-family target addresses contributed by one control flow
instruction to the bound-discovery scan. -/
def cfExecAddrs (cf : ControlFlowInstruction) : List Nat :=
  if IsControlFlowOpcodeExec cf.opcode then [cf.address] else []

/-- The exec-family target addresses contributed by control flow pair i. -/
def pairExecAddrs (u : Ucode) (i : Nat) : List Nat :=
  cfExecAddrs (u.cfAt i).1 ++ cfExecAddrs (u.cfAt i).2

/-- Definition following the words of claim C1, not the source: a
bound-discovery scan that examines every pair in the original word-count
derived range exactly once, regardless of how the bound shrinks. -/
def scanCfPairsFullClaim (u : Ucode) (bound0 : Nat) (labels0 : List Nat) :
    Nat × List Nat :=
  (List.range bound0).foldl
    (fun bl i =>
      let cf_ab := u.cfAt i
      scanCfInstrStep cf_ab.2 (scanCfInstrStep cf_ab.1 bl))
    (bound0, labels0)

/-- The fields of Shader mutated by the gather pass, rewritten over a base
state; used to state framing lemmas (which analyzer fields each gather
function can touch). -/
def Shader.withGatherFields (s : Shader) (crm : ConstantRegisterMap)
    (rb : Nat) (dyn kp : Bool) (wct : Nat) (wd : Bool)
    (eM streams : List Nat) (vb : List VertexBinding)
    (tb : List TextureBinding) : Shader :=
  { s with
    constant_register_map := crm
    register_static_address_bound := rb
    uses_register_dynamic_addressing := dyn
    kills_pixels := kp
    writes_color_targets := wct
    writes_depth := wd
    memexport_eM_written := eM
    memexport_stream_constants := streams
    vertex_bindings := vb
    texture_bindings := tb }

/-- Framing relation: t agrees with s on every Shader field that the gather
pass never writes (ucode, shader type, analyzed flag, pair bound, labels). -/
def GatherShape (s t : Shader) : Prop :=
  ∃ crm rb dyn kp wct wd eM streams vb tb,
    t = s.withGatherFields crm rb dyn kp wct wd eM streams vb tb

/-- The per-slot memexport invariant of claim C2 on an (eA mask, eM array)
pair: slot i has eM writes exactly when its eA bit is set. -/
def cleanupProp (i : Nat) (st : Nat × List Nat) : Prop :=
  st.2.getD i 0 ≠ 0 ↔ st.1.testBit i = true

/-- Folding Shader::GatherTextureFetchInformation over an instruction list,
threading the unique-binding counter as the analyzer does. -/
def processTexOps (s : Shader) (unique : Nat) :
    List TextureFetchInstruction → Shader × Nat
  | [] => (s, unique)
  | op :: rest =>
    let r := s.GatherTextureFetchInformation op unique
    processTexOps r.1 r.2 rest

/-- The texture fetch opcodes that create bindings (all decoded texture
opcodes except the LOD/gradient setters). -/
def textureBindingOpcodes : List FetchOpcode :=
  [.kTextureFetch, .kGetTextureBorderColorFrac, .kGetTextureComputedLod,
   .kGetTextureGradients, .kGetTextureWeights]

/-- The texture binding dedup invariant: bindings with equal fetch constants
share a binding index, and every index is below the unique counter. -/
def TexInv (bs : List TextureBinding) (u : Nat) : Prop :=
  (∀ b1 ∈ bs, ∀ b2 ∈ bs,
    b1.fetch_constant = b2.fetch_constant →
    b1.binding_index = b2.binding_index) ∧
  (∀ b ∈ bs, b.binding_index < u)

/-- Usage-accumulator ordering between shader states: the register high-water
mark does not decrease, the two dynamic flags and the float bitmap bits are
sticky, and the float bitmap keeps its word count. -/
def UsageLe (s t : Shader) : Prop :=
  s.register_static_address_bound ≤ t.register_static_address_bound ∧
  (s.uses_register_dynamic_addressing = true →
    t.uses_register_dynamic_addressing = true) ∧
  t.constant_register_map.float_bitmap.length =
    s.constant_register_map.float_bitmap.length ∧
  (∀ w ∈ List.range s.constant_register_map.float_bitmap.length, ∀ b : Nat,
    (s.constant_register_map.float_bitmap.getD w 0).testBit b = true →
    (t.constant_register_map.float_bitmap.getD w 0).testBit b = true) ∧
  (s.constant_register_map.float_dynamic_addressing = true →
    t.constant_register_map.float_dynamic_addressing = true)

/-- What it means for the constant/register usage accumulators of a state to
reflect one decoded operand (the updates of Shader::GatherOperandInformation):
a static register operand is below the high-water mark, a relative register
operand set the dynamic flag, a static float constant set its bitmap bit
(whenever its bitmap word exists), and a relative float constant set the
all-used flag. -/
def OperandFed (o : InstructionOperand) (s : Shader) : Prop :=
  (o.storage_source = .kRegister →
    o.storage_addressing_mode = .kStatic →
    o.storage_index + 1 ≤ s.register_static_address_bound) ∧
  (o.storage_source = .kRegister →
    o.storage_addressing_mode ≠ .kStatic →
    s.uses_register_dynamic_addressing = true) ∧
  (o.storage_source = .kConstantFloat →
    o.storage_addressing_mode = .kStatic →
    o.storage_index >>> 6 < s.constant_register_map.float_bitmap.length →
    (s.constant_register_map.float_bitmap.getD
        (o.storage_index >>> 6) 0).testBit (o.storage_index &&& 63) = true) ∧
  (o.storage_source = .kConstantFloat →
    o.storage_addressing_mode ≠ .kStatic →
    s.constant_register_map.float_dynamic_addressing = true)

/-- Concrete microcode for claim C1: two control flow pairs; pair 0 holds an
exec with target address 1 (shrinking the bound to 1) and a call labelling
address 5; pair 1 holds a call labelling address 7. -/
def c1Ucode : Ucode :=
  { size := 6
    cfAt := fun i =>
      if i = 0 then
        ({ opcode := .kExec, address := 1, count := 0, sequence := 0 },
         { opcode := .kCondCall, address := 5, is_unconditional := true })
      else
        ({ opcode := .kCondCall, address := 7, is_unconditional := true },
         { opcode := .kNop }) }

/-- A fresh shader over the C1 microcode. -/
def c1Shader : Shader := { ucode := c1Ucode }

/-- Concrete ALU instruction for claim C3: an exported add (not a mad) into
the export address register with a full vector write mask. -/
def c3AluAdd : AluInstruction :=
  { is_export := true
    vector_dest := 32
    vector_opcode := 0
    vector_op_result_write_mask := 0b1111 }

/-- Concrete ALU instruction for claim C3: an exported mad into the export
address register with a full vector write mask and an unmodified static
float constant 12 as the third operand. -/
def c3AluMad : AluInstruction :=
  { is_export := true
    vector_dest := 32
    vector_opcode := 11
    vector_op_result_write_mask := 0b1111
    src3_reg := 12 }

/-- The identity r0 operand used by the default-nop pattern. -/
def c4IdentityOperand : InstructionOperand :=
  { storage_source := .kRegister
    storage_index := 0
    storage_addressing_mode := .kStatic
    is_negated := false
    is_absolute_value := false
    component_count := 4
    components := [.kX, .kY, .kZ, .kW] }

/-- Concrete parsed ALU instruction for claim C4: a fully-masked unclamped
max r0, r0 exported to the export address, co-issued with a default-nop
retain_prev scalar operation. -/
def c4NopExport : ParsedAluInstruction :=
  { vector_opcode := kAluVectorOpcodeMax
    scalar_opcode := kAluScalarOpcodeRetainPrev
    vector_and_constant_result :=
      { storage_target := .kExportAddress
        original_write_mask := 0
        is_clamped := false }
    scalar_result :=
      { storage_target := .kExportAddress
        original_write_mask := 0
        is_clamped := false }
    vector_operand_count := 2
    vector_operands := [c4IdentityOperand, c4IdentityOperand] }

/-- Concrete full vertex fetch for claim C5. -/
def c5Full : VertexFetchInstruction :=
  { src := 7
    src_swizzle := 2
    is_src_relative := false
    stride := 8
    fetch_constant_index := 3 }

/-- Concrete mini vertex fetch for claim C5, with its own (ignored) source
fields differing from the preceding full fetch. -/
def c5Mini : VertexFetchInstruction :=
  { is_mini_fetch := true
    src := 1
    src_swizzle := 1
    stride := 2
    fetch_constant_index := 9 }

/-- A texture fetch instruction on a given fetch constant slot (claim C6). -/
def c6Tex (slot : Nat) : TextureFetchInstruction :=
  { opcode := .kTextureFetch
    dimension := .k2D
    fetch_constant_index := slot }

/-- Concrete texture fetch sequence for claim C6: slot 3 twice, then slot 5. -/
def c6Ops : List TextureFetchInstruction := [c6Tex 3, c6Tex 3, c6Tex 5]

/-- A pure LOD setter instruction for claim C6. -/
def c6Setter : TextureFetchInstruction := { opcode := .kSetTextureLod }

/-- Concrete vertex fetch for claim C7 whose destination swizzle masks out
every component (all four 3-bit groups are 7), reading source register 5. -/
def c7Vf7 : VertexFetchInstruction :=
  { dest_swizzle := 0xFFF
    src := 5 }

/-- Concrete full vertex fetch for claim C7 with a full write mask, reading
source register 5. -/
def c7VfGood : VertexFetchInstruction :=
  { dest_swizzle := 0
    src := 5
    stride := 4 }

/-- Folding a step function preserves any projection each step preserves. -/
theorem foldlPreserves {α β γ : Type _} (f : α → β → α) (g : α → γ)
    (h : ∀ a b, g (f a b) = g a) :
    ∀ (l : List β) (a : α), g (l.foldl f a) = g a
  | [], _ => rfl
  | b :: l, a => by
    rw [List.foldl_cons, foldlPreserves f g h l (f a b), h]

/-- Every state is in the gather frame of itself. -/
theorem GatherShape.rfl (s : Shader) : GatherShape s s :=
  ⟨s.constant_register_map, s.register_static_address_bound,
   s.uses_register_dynamic_addressing, s.kills_pixels,
   s.writes_color_targets, s.writes_depth, s.memexport_eM_written,
   s.memexport_stream_constants, s.vertex_bindings, s.texture_bindings,
   Eq.refl s⟩

/-- The gather frame composes. -/
theorem GatherShape.trans {s t u : Shader} (h1 : GatherShape s t)
    (h2 : GatherShape t u) : GatherShape s u := by
  obtain ⟨_, _, _, _, _, _, _, _, _, _, rfl⟩ := h1
  obtain ⟨crm, rb, dyn, kp, wct, wd, eM, cs, vb, tb, rfl⟩ := h2
  exact ⟨crm, rb, dyn, kp, wct, wd, eM, cs, vb, tb, Eq.refl _⟩

/-- A state in the gather frame of s keeps the control flow pair bound of s. -/
theorem GatherShape.bound_eq {s t : Shader} (h : GatherShape s t) :
    t.cf_pair_index_bound = s.cf_pair_index_bound := by
  obtain ⟨_, _, _, _, _, _, _, _, _, _, rfl⟩ := h
  rfl

/-- A state in the gather frame of s keeps the ucode of s. -/
theorem GatherShape.ucode_eq {s t : Shader} (h : GatherShape s t) :
    t.ucode = s.ucode := by
  obtain ⟨_, _, _, _, _, _, _, _, _, _, rfl⟩ := h
  rfl

/-- A state in the gather frame of s keeps the label set of s. -/
theorem GatherShape.labels_eq {s t : Shader} (h : GatherShape s t) :
    t.label_addresses = s.label_addresses := by
  obtain ⟨_, _, _, _, _, _, _, _, _, _, rfl⟩ := h
  rfl

/-- GatherOperandInformation stays in the gather frame. -/
theorem gatherOperand_shape (s : Shader) (o : InstructionOperand) :
    GatherShape s (s.GatherOperandInformation o) := by
  unfold Shader.GatherOperandInformation
  split <;> first
  | exact GatherShape.rfl s
  | split <;> exact ⟨_, _, _, _, _, _, _, _, _, _, Eq.refl _⟩

/-- Folding GatherOperandInformation stays in the gather frame. -/
theorem gatherOperand_foldl_shape (l : List InstructionOperand) :
    ∀ s : Shader, GatherShape s (l.foldl Shader.GatherOperandInformation s) :=
  match l with
  | [] => fun s => GatherShape.rfl s
  | o :: rest => fun s =>
    GatherShape.trans (gatherOperand_shape s o)
      (gatherOperand_foldl_shape rest (s.GatherOperandInformation o))

/-- GatherFetchResultInformation stays in the gather frame. -/
theorem gatherFetchResult_shape (s : Shader) (r : InstructionResult) :
    GatherShape s (s.GatherFetchResultInformation r) := by
  unfold Shader.GatherFetchResultInformation
  split
  · exact GatherShape.rfl s
  · split <;> exact ⟨_, _, _, _, _, _, _, _, _, _, Eq.refl _⟩

/-- GatherAluResultInformation stays in the gather frame. -/
theorem gatherAluResult_shape (s : Shader) (r : InstructionResult) (c : Nat) :
    GatherShape s (s.GatherAluResultInformation r c) := by
  unfold Shader.GatherAluResultInformation
  repeat' split
  all_goals exact ⟨_, _, _, _, _, _, _, _, _, _, Eq.refl _⟩

/-- GatherOperandInformation keeps the control flow pair bound. -/
theorem gatherOperand_bound (s : Shader) (o : InstructionOperand) :
    (s.GatherOperandInformation o).cf_pair_index_bound =
      s.cf_pair_index_bound :=
  (gatherOperand_shape s o).bound_eq

/-- Folding GatherOperandInformation keeps the control flow pair bound. -/
theorem gatherOperand_foldl_bound (l : List InstructionOperand) (s : Shader) :
    (l.foldl Shader.GatherOperandInformation s).cf_pair_index_bound =
      s.cf_pair_index_bound :=
  (gatherOperand_foldl_shape l s).bound_eq

/-- GatherFetchResultInformation keeps the control flow pair bound. -/
theorem gatherFetchResult_bound (s : Shader) (r : InstructionResult) :
    (s.GatherFetchResultInformation r).cf_pair_index_bound =
      s.cf_pair_index_bound :=
  (gatherFetchResult_shape s r).bound_eq

/-- GatherAluResultInformation keeps the control flow pair bound. -/
theorem gatherAluResult_bound (s : Shader) (r : InstructionResult) (c : Nat) :
    (s.GatherAluResultInformation r c).cf_pair_index_bound =
      s.cf_pair_index_bound :=
  (gatherAluResult_shape s r c).bound_eq

/-- GatherVertexFetchInformation keeps the control flow pair bound. -/
theorem gatherVertexFetch_bound (s : Shader)
    (op prev : VertexFetchInstruction) :
    (s.GatherVertexFetchInformation op prev).1.cf_pair_index_bound =
      s.cf_pair_index_bound := by
  simp only [Shader.GatherVertexFetchInformation]
  split
  · exact gatherFetchResult_bound s _
  · split <;>
      simp only [gatherOperand_foldl_bound, gatherFetchResult_bound]

/-- GatherTextureFetchInformation keeps the control flow pair bound. -/
theorem gatherTextureFetch_bound (s : Shader)
    (op : TextureFetchInstruction) (u : Nat) :
    (s.GatherTextureFetchInformation op u).1.cf_pair_index_bound =
      s.cf_pair_index_bound := by
  simp only [Shader.GatherTextureFetchInformation]
  split <;> try split
  all_goals
    simp only [gatherOperand_foldl_bound, gatherFetchResult_bound]

/-- GatherAluInstructionInformation keeps the control flow pair bound. -/
theorem gatherAluInstruction_bound (s : Shader) (op : AluInstruction)
    (c eA : Nat) :
    (s.GatherAluInstructionInformation op c eA).1.cf_pair_index_bound =
      s.cf_pair_index_bound := by
  simp only [Shader.GatherAluInstructionInformation]
  split <;> try split
  all_goals
    simp only [gatherOperand_foldl_bound, gatherAluResult_bound]

/-- The exec sub-loop slot keeps the control flow pair bound. -/
theorem gatherExecSlot_bound (s : Shader) (locals : GatherLocals)
    (instr_offset sequence : Nat) :
    (s.gatherExecSlot locals instr_offset sequence).1.cf_pair_index_bound =
      s.cf_pair_index_bound := by
  simp only [Shader.gatherExecSlot]
  split <;> try split
  all_goals
    simp only [gatherVertexFetch_bound, gatherTextureFetch_bound,
      gatherAluInstruction_bound]

/-- The exec sub-loop keeps the control flow pair bound. -/
theorem gatherExecLoop_bound (n : Nat) :
    ∀ (s : Shader) (locals : GatherLocals) (instr_offset sequence : Nat),
    (s.gatherExecLoop locals instr_offset sequence n).1.cf_pair_index_bound =
      s.cf_pair_index_bound := by
  induction n with
  | zero => intro s locals o q; rfl
  | succ n ih =>
    intro s locals o q
    simp only [Shader.gatherExecLoop]
    rw [ih, gatherExecSlot_bound]

/-- GatherExecInformation keeps the control flow pair bound. -/
theorem gatherExecInformation_bound (s : Shader)
    (instr : ParsedExecInstruction) (locals : GatherLocals) :
    (s.GatherExecInformation instr locals).1.cf_pair_index_bound =
      s.cf_pair_index_bound :=
  gatherExecLoop_bound _ s locals _ _

/-- The bool-constant bitmap update keeps the control flow pair bound. -/
theorem markBoolConstant_bound (s : Shader) (b : Nat) :
    (s.markBoolConstant b).cf_pair_index_bound = s.cf_pair_index_bound := by
  unfold Shader.markBoolConstant
  split <;> rfl

/-- The per-control-flow-instruction switch keeps the pair bound. -/
theorem analyzeCfInstr_bound (s : Shader) (locals : GatherLocals)
    (cf : ControlFlowInstruction) (cf_index : Nat) :
    (s.analyzeCfInstr locals cf cf_index).1.cf_pair_index_bound =
      s.cf_pair_index_bound := by
  simp only [Shader.analyzeCfInstr, markBoolConstant_bound]
  split <;> simp only [gatherExecInformation_bound]

/-- One gather pair keeps the pair bound. -/
theorem gatherPair_bound (sl : Shader × GatherLocals) (i : Nat) :
    (Shader.gatherPair sl i).1.cf_pair_index_bound =
      sl.1.cf_pair_index_bound := by
  simp only [Shader.gatherPair]
  rw [analyzeCfInstr_bound, analyzeCfInstr_bound]

/-- The gather phase keeps the pair bound. -/
theorem gatherPhase_bound (s : Shader) :
    (s.gatherPhase).1.cf_pair_index_bound = s.cf_pair_index_bound :=
  foldlPreserves Shader.gatherPair (fun sl => sl.1.cf_pair_index_bound)
    gatherPair_bound (List.range s.cf_pair_index_bound) (s, {})

/-- Float constant finalization keeps the pair bound. -/
theorem finishFloatConstants_bound (s : Shader) :
    (s.finishFloatConstants).cf_pair_index_bound = s.cf_pair_index_bound := by
  unfold Shader.finishFloatConstants
  split <;> rfl

/-- One scan step never grows the bound. -/
theorem scanCfInstrStep_bound_le (cf : ControlFlowInstruction)
    (bl : Nat × List Nat) : (scanCfInstrStep cf bl).1 ≤ bl.1 := by
  simp only [scanCfInstrStep]
  split
  · exact min_le_left _ _
  · exact le_refl _

/-- One scan step clamps the bound below every exec target address of its
instruction. -/
theorem scanCfInstrStep_le_addr (cf : ControlFlowInstruction)
    (bl : Nat × List Nat) :
    ∀ a ∈ cfExecAddrs cf, (scanCfInstrStep cf bl).1 ≤ a := by
  intro a ha
  unfold cfExecAddrs at ha
  simp only [scanCfInstrStep]
  split
  · next h =>
    rw [if_pos h] at ha
    simp only [List.mem_singleton] at ha
    exact ha ▸ min_le_right _ _
  · next h =>
    rw [if_neg h] at ha
    simp at ha

/-- The bound-discovery loop never grows the bound. -/
theorem scanCfPairs_bound_le (u : Ucode) :
    ∀ (fuel i bound : Nat) (labels : List Nat),
    (scanCfPairs u fuel i bound labels).1 ≤ bound := by
  intro fuel
  induction fuel with
  | zero => intro i bound labels; exact le_refl _
  | succ n ih =>
    intro i bound labels
    simp only [scanCfPairs]
    split
    · refine le_trans (ih _ _ _) (le_trans (scanCfInstrStep_bound_le _ _) ?_)
      exact scanCfInstrStep_bound_le _ _
    · exact le_refl _

/-- Every pair examined by the bound-discovery loop (a pair whose index ends
up below the settled bound) has all its exec target addresses at least the
settled bound. -/
theorem scanCfPairs_examined (u : Ucode) :
    ∀ (fuel i bound : Nat) (labels : List Nat),
    bound - i ≤ fuel →
    ∀ k, i ≤ k → k < (scanCfPairs u fuel i bound labels).1 →
    ∀ a ∈ pairExecAddrs u k, (scanCfPairs u fuel i bound labels).1 ≤ a := by
  intro fuel
  induction fuel with
  | zero =>
    intro i bound labels hf k hik hk a _
    simp only [scanCfPairs] at hk
    omega
  | succ n ih =>
    intro i bound labels hf k hik hk a ha
    simp only [scanCfPairs] at hk ⊢
    by_cases h : i < bound
    · rw [if_pos h] at hk ⊢
      rcases Nat.eq_or_lt_of_le hik with heq | hlt
      · subst heq
        have hle : (scanCfPairs u n (i + 1)
            (scanCfInstrStep (u.cfAt i).2
              (scanCfInstrStep (u.cfAt i).1 (bound, labels))).1
            (scanCfInstrStep (u.cfAt i).2
              (scanCfInstrStep (u.cfAt i).1 (bound, labels))).2).1 ≤
            (scanCfInstrStep (u.cfAt i).2
              (scanCfInstrStep (u.cfAt i).1 (bound, labels))).1 :=
          scanCfPairs_bound_le u n _ _ _
        unfold pairExecAddrs at ha
        rcases List.mem_append.mp ha with h1 | h2
        · exact le_trans hle (le_trans (scanCfInstrStep_bound_le _ _)
            (scanCfInstrStep_le_addr _ _ a h1))
        · exact le_trans hle (scanCfInstrStep_le_addr _ _ a h2)
      · have hb2 : (scanCfInstrStep (u.cfAt i).2
            (scanCfInstrStep (u.cfAt i).1 (bound, labels))).1 ≤ bound :=
          le_trans (scanCfInstrStep_bound_le _ _)
            (scanCfInstrStep_bound_le _ _)
        exact ih (i + 1) _ _ (by omega) k hlt hk a ha
    · rw [if_neg h] at hk
      omega

/-- The settled pair bound of the analysis body is the bound computed by the
bound-discovery loop. -/
theorem analyzeBody_bound (s : Shader) :
    (s.analyzeBody).1.cf_pair_index_bound =
      (scanCfPairs s.ucode (s.ucode.size / 3) 0 (s.ucode.size / 3)
        s.label_addresses).1 := by
  simp only [Shader.analyzeBody]
  split <;> simp only [finishFloatConstants_bound, gatherPhase_bound]

/-- The analysis body always leaves the analyzed flag set. -/
theorem analyzeBody_flag (s : Shader) :
    (s.analyzeBody).1.is_ucode_analyzed = true := by
  simp only [Shader.analyzeBody]

/-- C9: shader analysis is idempotent.  A shader whose ucode is already
analyzed returns unchanged from AnalyzeUcode, and analyzing twice equals
analyzing once, leaving the whole analysis result intact. -/
theorem c9_analysis_idempotent :
    (∀ s : Shader, s.is_ucode_analyzed = true → s.AnalyzeUcode = s) ∧
    (∀ s : Shader, s.AnalyzeUcode.AnalyzeUcode = s.AnalyzeUcode) := by
  have hnoop : ∀ s : Shader, s.is_ucode_analyzed = true →
      s.AnalyzeUcode = s := by
    intro s hs
    simp [Shader.AnalyzeUcode, Shader.analyzeUcodeCore, hs]
  refine ⟨hnoop, fun s => ?_⟩
  by_cases hs : s.is_ucode_analyzed = true
  · rw [hnoop s hs, hnoop s hs]
  · have h2 : s.AnalyzeUcode = (s.analyzeBody).1 := by
      simp [Shader.AnalyzeUcode, Shader.analyzeUcodeCore, hs]
    rw [h2]
    exact hnoop _ (analyzeBody_flag s)

/-- Witness for C9 at a concrete already-analyzed shader. -/
theorem c9_analysis_idempotent_witness :
    Shader.AnalyzeUcode { is_ucode_analyzed := true } =
      ({ is_ucode_analyzed := true } : Shader) :=
  c9_analysis_idempotent.1 { is_ucode_analyzed := true } rfl

/-- C8: requesting translation of a shader whose ucode has not been analyzed
fails immediately: the driver logs the error, returns false, and leaves the
translation untouched (no exception can escape a total function). -/
theorem c8_translate_requires_analysis {σ : Type} (b : Backend σ) (st0 : σ)
    (shader : Shader) (t : Translation)
    (h : shader.is_ucode_analyzed = false) :
    TranslateAnalyzedShader b st0 shader t =
      (false, t,
       ["AnalyzeUcode must be done on the shader before translation"]) := by
  simp [TranslateAnalyzedShader, h]

/-- Witness for C8 at a concrete unanalyzed shader and trivial backend. -/
theorem c8_translate_requires_analysis_witness :
    TranslateAnalyzedShader ({} : Backend Unit) () ({} : Shader) {} =
      (false, ({} : Translation),
       ["AnalyzeUcode must be done on the shader before translation"]) :=
  c8_translate_requires_analysis {} () {} {} rfl

/-- C10: ParsedAluInstruction::IsNop holds exactly when the scalar opcode is
retain_prev, both results have an empty used write mask, and the vector
opcode has no side effects; in particular it is independent of operands,
storage indices, and clamp flags, so any instruction satisfying these four
conditions reports IsNop even without the full default-nop bit pattern. -/
theorem c10_alu_is_nop (i : ParsedAluInstruction) :
    i.IsNop = true ↔
      (i.scalar_opcode = kAluScalarOpcodeRetainPrev ∧
       i.scalar_result.GetUsedWriteMask = 0 ∧
       i.vector_and_constant_result.GetUsedWriteMask = 0 ∧
       AluVectorOpHasSideEffects i.vector_opcode = false) := by
  simp [ParsedAluInstruction.IsNop]

/-- C5: decoding a mini vertex fetch with the most recent full fetch as
context copies the full fetch's decoded source register, addressing mode,
swizzle, and stride, and the boolean return value is true exactly for full
fetches (telling the caller whether to update its last-full-fetch cache). -/
theorem c5_vertex_mini_fetch :
    (∀ op prev : VertexFetchInstruction,
      (ParseVertexFetchInstruction op prev).2 = !op.is_mini_fetch) ∧
    (∀ m f prev : VertexFetchInstruction,
      m.is_mini_fetch = true → f.is_mini_fetch = false →
      ((ParseVertexFetchInstruction m f).1.operands.getD 0
          default).storage_index =
        ((ParseVertexFetchInstruction f prev).1.operands.getD 0
          default).storage_index ∧
      ((ParseVertexFetchInstruction m f).1.operands.getD 0
          default).storage_addressing_mode =
        ((ParseVertexFetchInstruction f prev).1.operands.getD 0
          default).storage_addressing_mode ∧
      ((ParseVertexFetchInstruction m f).1.operands.getD 0
          default).components =
        ((ParseVertexFetchInstruction f prev).1.operands.getD 0
          default).components ∧
      (ParseVertexFetchInstruction m f).1.attributes.stride =
        (ParseVertexFetchInstruction f prev).1.attributes.stride) := by
  constructor
  · intro op prev; rfl
  · intro m f prev hm hf
    simp [ParseVertexFetchInstruction, hm, hf]

/-- Witness for C5 at a concrete full fetch followed by a mini fetch. -/
theorem c5_vertex_mini_fetch_witness :
    ((ParseVertexFetchInstruction c5Mini c5Full).1.operands.getD 0
        default).storage_index =
      ((ParseVertexFetchInstruction c5Full {}).1.operands.getD 0
        default).storage_index ∧
    (ParseVertexFetchInstruction c5Mini c5Full).1.attributes.stride =
      (ParseVertexFetchInstruction c5Full {}).1.attributes.stride := by
  have h := c5_vertex_mini_fetch.2 c5Mini c5Full {} rfl rfl
  exact ⟨h.1, h.2.2.2⟩

/-- C1 counterexample: the bound-discovery scan does not examine every pair
of the original word-count-derived range.  On the concrete two-pair program
c1Ucode, the scan of the source stops once the bound has shrunk below the
pair index, missing the label at 7 contributed by pair 1, which the
claim-mandated full-range scan collects. -/
theorem c1_counterexample :
    (Shader.AnalyzeUcode c1Shader).label_addresses = [5] ∧
    (scanCfPairsFullClaim c1Ucode 2 []).2 = [5, 7] := by
  constructor <;> decide

/-- C1 (amended): the bound-discovery scan is gated by the current, possibly
already shrunk bound rather than the original range: the settled bound never
exceeds the word-count-derived pair count, every exec-family target address
in a pair below the settled bound is at least the settled bound, and the
settled bound is what AnalyzeUcode stores to gate the per-instruction
analysis loop. -/
theorem c1_bound_discovery_amended (s : Shader)
    (h : s.is_ucode_analyzed = false) :
    (Shader.AnalyzeUcode s).cf_pair_index_bound =
      (scanCfPairs s.ucode (s.ucode.size / 3) 0 (s.ucode.size / 3)
        s.label_addresses).1 ∧
    (scanCfPairs s.ucode (s.ucode.size / 3) 0 (s.ucode.size / 3)
        s.label_addresses).1 ≤ s.ucode.size / 3 ∧
    (∀ k, k < (scanCfPairs s.ucode (s.ucode.size / 3) 0 (s.ucode.size / 3)
        s.label_addresses).1 →
      ∀ a ∈ pairExecAddrs s.ucode k,
        (scanCfPairs s.ucode (s.ucode.size / 3) 0 (s.ucode.size / 3)
          s.label_addresses).1 ≤ a) := by
  refine ⟨?_, scanCfPairs_bound_le _ _ _ _ _, ?_⟩
  · have h2 : s.AnalyzeUcode = (s.analyzeBody).1 := by
      simp [Shader.AnalyzeUcode, Shader.analyzeUcodeCore, h]
    rw [h2, analyzeBody_bound]
  · intro k hk a ha
    exact scanCfPairs_examined s.ucode _ 0 _ _ (by omega) k (Nat.zero_le k)
      hk a ha

/-- Witness for the amended C1 at the concrete C1 shader. -/
theorem c1_bound_discovery_amended_witness :
    (Shader.AnalyzeUcode c1Shader).cf_pair_index_bound =
      (scanCfPairs c1Shader.ucode (c1Shader.ucode.size / 3) 0
        (c1Shader.ucode.size / 3) c1Shader.label_addresses).1 :=
  (c1_bound_discovery_amended c1Shader rfl).1

/-- Setting an entry to zero makes its read zero (also out of range, where
the read already defaults to zero). -/
theorem getD_set_zero : ∀ (l : List Nat) (i : Nat), (l.set i 0).getD i 0 = 0
  | [], _ => rfl
  | _ :: _, 0 => rfl
  | _ :: xs, n + 1 => getD_set_zero xs n

/-- Setting one entry leaves reads of other indices unchanged. -/
theorem getD_set_ne (v : Nat) :
    ∀ (l : List Nat) (i j : Nat), i ≠ j → (l.set j v).getD i 0 = l.getD i 0
  | [], _, _, _ => rfl
  | _ :: _, i, 0, h => by
    cases i with
    | zero => exact absurd rfl h
    | succ n => rfl
  | _ :: xs, i, j + 1, h => by
    cases i with
    | zero => rfl
    | succ n => exact getD_set_ne v xs n j fun he => h (by rw [he])

/-- Clearing bit j of a 32-bit mask clears exactly bit j. -/
theorem testBit_clearBit_self (eA j : Nat) (hj : j < 32) :
    (eA &&& (UINT32_MAX ^^^ (1 <<< j))).testBit j = false := by
  rw [Nat.testBit_and, Nat.testBit_xor]
  have h1 : UINT32_MAX.testBit j = true := by
    have he : UINT32_MAX = 2 ^ 32 - 1 := by norm_num [UINT32_MAX]
    rw [he, Nat.testBit_two_pow_sub_one]
    simpa using hj
  have h2 : (1 <<< j).testBit j = true := by
    rw [Nat.shiftLeft_eq, one_mul]
    exact @Nat.testBit_two_pow_self j
  rw [h1, h2]
  simp

/-- Clearing bit j of a 32-bit mask leaves other low bits unchanged. -/
theorem testBit_clearBit_ne (eA i j : Nat) (hi : i < 32) (hij : i ≠ j) :
    (eA &&& (UINT32_MAX ^^^ (1 <<< j))).testBit i = eA.testBit i := by
  rw [Nat.testBit_and, Nat.testBit_xor]
  have h1 : UINT32_MAX.testBit i = true := by
    have he : UINT32_MAX = 2 ^ 32 - 1 := by norm_num [UINT32_MAX]
    rw [he, Nat.testBit_two_pow_sub_one]
    simpa using hi
  have h2 : (1 <<< j).testBit i = false := by
    rw [Nat.shiftLeft_eq, one_mul]
    exact Nat.testBit_two_pow_of_ne fun he => hij he.symm
  rw [h1, h2]
  simp

/-- One cleanup step establishes the memexport invariant at its own index. -/
theorem memexportCleanupStep_establishes (st : Nat × List Nat) (i : Nat)
    (hi : i < 32) : cleanupProp i (memexportCleanupStep st i) := by
  unfold memexportCleanupStep cleanupProp
  split
  · next h =>
    simp only [Bool.not_eq_true] at h
    dsimp only
    rw [getD_set_zero]
    simp [h]
  · next h =>
    rw [not_not] at h
    split
    · next h2 =>
      dsimp only
      rw [testBit_clearBit_self st.1 i hi]
      simpa using h2
    · next h2 =>
      simp only [h, iff_true]
      simpa using h2

/-- One cleanup step preserves the memexport invariant at other indices. -/
theorem memexportCleanupStep_preserves (st : Nat × List Nat) (i j : Nat)
    (hi : i < 32) (hij : i ≠ j) (h : cleanupProp i st) :
    cleanupProp i (memexportCleanupStep st j) := by
  unfold memexportCleanupStep
  unfold cleanupProp at h ⊢
  split
  · dsimp only
    rw [getD_set_ne 0 st.2 i j hij]
    exact h
  · split
    · dsimp only
      rw [testBit_clearBit_ne st.1 i j hi hij]
      exact h
    · exact h

/-- Folding cleanup steps over indices not containing i preserves the
invariant at i. -/
theorem cleanup_foldl_preserves :
    ∀ (l : List Nat) (st : Nat × List Nat) (i : Nat), i < 32 → i ∉ l →
    cleanupProp i st → cleanupProp i (l.foldl memexportCleanupStep st)
  | [], _, _, _, _, h => h
  | j :: rest, st, i, hi, hmem, h => by
    rw [List.foldl_cons]
    refine cleanup_foldl_preserves rest _ i hi
      (fun hr => hmem (List.mem_cons_of_mem _ hr)) ?_
    exact memexportCleanupStep_preserves st i j hi
      (fun he => hmem (he ▸ List.mem_cons_self _ _)) h

/-- Folding cleanup steps over a duplicate-free index list containing i
establishes the invariant at i. -/
theorem cleanup_foldl_establishes :
    ∀ (l : List Nat) (st : Nat × List Nat) (i : Nat), i < 32 → i ∈ l →
    l.Nodup → cleanupProp i (l.foldl memexportCleanupStep st)
  | [], _, i, _, hmem, _ => absurd hmem (List.not_mem_nil i)
  | j :: rest, st, i, hi, hmem, hnd => by
    rw [List.foldl_cons]
    rcases List.mem_cons.mp hmem with heq | hr
    · subst heq
      exact cleanup_foldl_preserves rest _ i hi (List.nodup_cons.mp hnd).1
        (memexportCleanupStep_establishes st i hi)
    · exact cleanup_foldl_establishes rest _ i hi hr
        (List.nodup_cons.mp hnd).2

/-- The memexport cleanup loop establishes the per-slot invariant. -/
theorem memexportCleanup_invariant (eA : Nat) (eM : List Nat) (i : Nat)
    (h : i < kMaxMemExports) : cleanupProp i (memexportCleanup eA eM) :=
  cleanup_foldl_establishes (List.range kMaxMemExports) (eA, eM) i
    (by unfold kMaxMemExports at h; omega) (List.mem_range.mpr h)
    (List.nodup_range _)

/-- C2: after AnalyzeUcode on a not yet analyzed shader, every memexport slot
below kMaxMemExports has a nonzero eM-written mask exactly when its bit of
the final eA-written mask is set, and when the final eA-written mask is zero
the stream constant set is empty. -/
theorem c2_memexport_invariant (s : Shader)
    (h : s.is_ucode_analyzed = false) :
    (∀ i, i < kMaxMemExports →
      ((s.analyzeUcodeCore.1.memexport_eM_written.getD i 0 ≠ 0) ↔
        s.analyzeUcodeCore.2.testBit i = true)) ∧
    (s.analyzeUcodeCore.2 = 0 →
      s.analyzeUcodeCore.1.memexport_stream_constants = []) := by
  have hcore : s.analyzeUcodeCore = s.analyzeBody := by
    simp [Shader.analyzeUcodeCore, h]
  rw [hcore]
  constructor
  · intro i hi
    simp only [Shader.analyzeBody]
    split <;> exact memexportCleanup_invariant _ _ i hi
  · intro h0
    simp only [Shader.analyzeBody] at h0 ⊢
    rw [if_pos h0]

/-- Witness for C2 at the empty shader and slot 0. -/
theorem c2_memexport_invariant_witness :
    ((({} : Shader).analyzeUcodeCore.1.memexport_eM_written.getD 0 0 ≠ 0) ↔
      ({} : Shader).analyzeUcodeCore.2.testBit 0 = true) :=
  (c2_memexport_invariant {} rfl).1 0 (by decide)

/-- GatherOperandInformation never touches the stream constant set. -/
theorem gatherOperand_streams (s : Shader) (o : InstructionOperand) :
    (s.GatherOperandInformation o).memexport_stream_constants =
      s.memexport_stream_constants := by
  unfold Shader.GatherOperandInformation
  repeat' split
  all_goals rfl

/-- Folding GatherOperandInformation never touches the stream constants. -/
theorem gatherOperand_foldl_streams (l : List InstructionOperand)
    (s : Shader) :
    (l.foldl Shader.GatherOperandInformation s).memexport_stream_constants =
      s.memexport_stream_constants :=
  foldlPreserves Shader.GatherOperandInformation
    Shader.memexport_stream_constants gatherOperand_streams l s

/-- GatherAluResultInformation never touches the stream constant set. -/
theorem gatherAluResult_streams (s : Shader) (r : InstructionResult)
    (c : Nat) :
    (s.GatherAluResultInformation r c).memexport_stream_constants =
      s.memexport_stream_constants := by
  unfold Shader.GatherAluResultInformation
  repeat' split
  all_goals rfl

/-- C3 counterexample: an ALU instruction whose vector result targets the
export address with allocation count 1 does not get its eA bit set when the
stream constant cannot be extracted (here the vector opcode is add, not
mad), contradicting the claim's unconditional eA update. -/
theorem c3_counterexample :
    (ParseAluInstruction c3AluAdd
        ShaderType.kVertex).vector_and_constant_result.storage_target =
      InstructionStorageTarget.kExportAddress ∧
    (({} : Shader).GatherAluInstructionInformation
        c3AluAdd 1 0).2.1.testBit 0 = false := by
  constructor <;> decide

/-- C3 (amended): for an ALU instruction whose vector result targets the
export address while the allocation count is in 1..kMaxMemExports, the
analyzer attempts to extract the memexport stream constant; on success the
eA bit for the count is set and the constant index recorded, and on failure
nothing is recorded and the only effect is a non-fatal log message. -/
theorem c3_memexport_eA_amended (s : Shader) (op : AluInstruction)
    (memexport_alloc_current_count eA : Nat)
    (htarget : (ParseAluInstruction op
        s.shader_type).vector_and_constant_result.storage_target =
      InstructionStorageTarget.kExportAddress)
    (h1 : 0 < memexport_alloc_current_count)
    (h2 : memexport_alloc_current_count ≤ kMaxMemExports) :
    ((ParseAluInstruction op s.shader_type).GetMemExportStreamConstant ≠
        UINT32_MAX →
      (s.GatherAluInstructionInformation op memexport_alloc_current_count
          eA).2.1 = (eA ||| (1 <<< (memexport_alloc_current_count - 1))) ∧
      (s.GatherAluInstructionInformation op memexport_alloc_current_count
          eA).1.memexport_stream_constants =
        insertSet
          (ParseAluInstruction op s.shader_type).GetMemExportStreamConstant
          s.memexport_stream_constants ∧
      (s.GatherAluInstructionInformation op memexport_alloc_current_count
          eA).2.2 = []) ∧
    ((ParseAluInstruction op s.shader_type).GetMemExportStreamConstant =
        UINT32_MAX →
      (s.GatherAluInstructionInformation op memexport_alloc_current_count
          eA).2.1 = eA ∧
      (s.GatherAluInstructionInformation op memexport_alloc_current_count
          eA).1.memexport_stream_constants = s.memexport_stream_constants ∧
      (s.GatherAluInstructionInformation op memexport_alloc_current_count
          eA).2.2 ≠ []) := by
  simp only [Shader.GatherAluInstructionInformation]
  rw [if_pos ⟨htarget, h1, h2⟩]
  constructor
  · intro hne
    rw [if_pos hne]
    refine ⟨rfl, ?_, rfl⟩
    dsimp only
    rw [gatherOperand_foldl_streams, gatherOperand_foldl_streams,
      gatherAluResult_streams, gatherAluResult_streams]
  · intro heq
    rw [if_neg fun hc => hc heq]
    refine ⟨rfl, ?_, by simp⟩
    dsimp only
    rw [gatherOperand_foldl_streams, gatherOperand_foldl_streams,
      gatherAluResult_streams, gatherAluResult_streams]

/-- Witness for the amended C3: the end-to-end scenario with a mad into eA,
allocation count 1, and static float constant 12 as the third operand. -/
theorem c3_memexport_eA_amended_witness :
    (ParseAluInstruction c3AluMad
        ShaderType.kVertex).GetMemExportStreamConstant = 12 ∧
    (({} : Shader).GatherAluInstructionInformation c3AluMad 1 0).2.1 = 1 ∧
    (({} : Shader).GatherAluInstructionInformation
        c3AluMad 1 0).1.memexport_stream_constants = [12] := by
  refine ⟨by decide, ?_, ?_⟩
  · have h := ((c3_memexport_eA_amended {} c3AluMad 1 0 (by decide)
      (by decide) (by decide)).1 (by decide)).1
    rw [h]
    decide
  · have h := ((c3_memexport_eA_amended {} c3AluMad 1 0 (by decide)
      (by decide) (by decide)).1 (by decide)).2.1
    rw [h]
    decide

/-- C4 counterexample: a parsed ALU instruction matching the claim's
conditions (max r0, r0 with empty write mask, unclamped, identity operands,
and a scalar op that is itself a default nop) with a non-register (export)
target reports IsVectorOpDefaultNop as false, refuting the claim's "or the
scalar op is independently a default nop" disjunct. -/
theorem c4_counterexample :
    c4NopExport.vector_opcode = kAluVectorOpcodeMax ∧
    c4NopExport.vector_and_constant_result.original_write_mask = 0 ∧
    c4NopExport.vector_and_constant_result.is_clamped = false ∧
    aluOperandIsIdentityR0 (c4NopExport.vector_operands.getD 0 default) =
      true ∧
    aluOperandIsIdentityR0 (c4NopExport.vector_operands.getD 1 default) =
      true ∧
    c4NopExport.IsScalarOpDefaultNop = true ∧
    c4NopExport.IsVectorOpDefaultNop = false := by
  decide

/-- C4 (amended): IsVectorOpDefaultNop holds exactly when the vector op is
max with an empty original write mask, unclamped, identity r0 operands, and
either the result statically targets register 0 or the result targets a
non-register destination while the scalar op is NOT itself a default nop
(so that the export destination stays stated in the microcode). -/
theorem c4_vector_default_nop_amended (i : ParsedAluInstruction) :
    i.IsVectorOpDefaultNop = true ↔
      (i.vector_opcode = kAluVectorOpcodeMax ∧
       i.vector_and_constant_result.original_write_mask = 0 ∧
       i.vector_and_constant_result.is_clamped = false ∧
       aluOperandIsIdentityR0 (i.vector_operands.getD 0 default) = true ∧
       aluOperandIsIdentityR0 (i.vector_operands.getD 1 default) = true ∧
       ((i.vector_and_constant_result.storage_target =
           InstructionStorageTarget.kRegister ∧
         i.vector_and_constant_result.storage_index = 0 ∧
         i.vector_and_constant_result.storage_addressing_mode =
           InstructionStorageAddressingMode.kStatic) ∨
        (i.vector_and_constant_result.storage_target ≠
           InstructionStorageTarget.kRegister ∧
         i.IsScalarOpDefaultNop = false))) := by
  unfold ParsedAluInstruction.IsVectorOpDefaultNop
  split_ifs with h1 h2 h3 h4
  · refine iff_of_false (by simp) ?_
    rintro ⟨ha, hb, hc, hd, he, -⟩
    rcases h1 with h | h | h | h | h <;> simp_all
  · refine iff_of_false (by simp) ?_
    rintro ⟨-, -, -, -, -, hf | hf⟩
    · rcases h3 with h | h
      · exact h hf.2.1
      · exact h hf.2.2
    · exact hf.1 h2
  · push_neg at h1 h3
    refine iff_of_true rfl ?_
    refine ⟨h1.1, h1.2.1, by simpa using h1.2.2.1, by simpa using h1.2.2.2.1,
      by simpa using h1.2.2.2.2, Or.inl ⟨h2, h3.1, h3.2⟩⟩
  · refine iff_of_false (by simp) ?_
    rintro ⟨-, -, -, -, -, hf | hf⟩
    · exact h2 hf.1
    · rw [h4] at hf
      exact absurd hf.2 (by simp)
  · push_neg at h1
    refine iff_of_true rfl ?_
    refine ⟨h1.1, h1.2.1, by simpa using h1.2.2.1, by simpa using h1.2.2.2.1,
      by simpa using h1.2.2.2.2, Or.inr ⟨h2, by simpa using h4⟩⟩

/-- GatherOperandInformation never touches the texture bindings. -/
theorem gatherOperand_tb (s : Shader) (o : InstructionOperand) :
    (s.GatherOperandInformation o).texture_bindings = s.texture_bindings := by
  unfold Shader.GatherOperandInformation
  repeat' split
  all_goals rfl

/-- Folding GatherOperandInformation never touches the texture bindings. -/
theorem gatherOperand_foldl_tb (l : List InstructionOperand) (s : Shader) :
    (l.foldl Shader.GatherOperandInformation s).texture_bindings =
      s.texture_bindings :=
  foldlPreserves Shader.GatherOperandInformation Shader.texture_bindings
    gatherOperand_tb l s

/-- GatherFetchResultInformation never touches the texture bindings. -/
theorem gatherFetchResult_tb (s : Shader) (r : InstructionResult) :
    (s.GatherFetchResultInformation r).texture_bindings =
      s.texture_bindings := by
  unfold Shader.GatherFetchResultInformation
  repeat' split
  all_goals rfl

/-- For a binding texture opcode, the parsed second operand carries the
fetch constant index of the raw instruction. -/
theorem parseTF_fetch_constant (op : TextureFetchInstruction)
    (h : op.opcode ∈ textureBindingOpcodes) :
    ((ParseTextureFetchInstruction op).operands.getD 1
      default).storage_index = op.fetch_constant_index := by
  simp only [textureBindingOpcodes, List.mem_cons, List.mem_singleton,
    List.not_mem_nil, or_false] at h
  rcases h with h | h | h | h | h <;>
    simp [ParseTextureFetchInstruction, texOpcodeInfo, h]

/-- A pure LOD/gradient setter creates no texture binding and keeps the
unique binding counter. -/
theorem gatherTF_setter (s : Shader) (u : Nat)
    (op : TextureFetchInstruction)
    (h : op.opcode = FetchOpcode.kSetTextureLod ∨
      op.opcode = FetchOpcode.kSetTextureGradientsHorz ∨
      op.opcode = FetchOpcode.kSetTextureGradientsVert) :
    (s.GatherTextureFetchInformation op u).1.texture_bindings =
      s.texture_bindings ∧
    (s.GatherTextureFetchInformation op u).2 = u := by
  rcases h with h | h | h <;>
  · simp only [Shader.GatherTextureFetchInformation, h]
    exact ⟨by rw [gatherOperand_foldl_tb, gatherFetchResult_tb], by trivial⟩

/-- For a binding opcode whose fetch constant is already bound, the binding
index of the first existing binding with that fetch constant is reused and
the unique counter is unchanged. -/
theorem gatherTF_found (s : Shader) (u : Nat)
    (op : TextureFetchInstruction) (tb : TextureBinding)
    (hop : op.opcode ∈ textureBindingOpcodes)
    (hf : s.texture_bindings.find?
        (fun b => decide (b.fetch_constant = op.fetch_constant_index)) =
      some tb) :
    (s.GatherTextureFetchInformation op u).1.texture_bindings =
      s.texture_bindings ++
        [{ binding_index := tb.binding_index
           fetch_constant := op.fetch_constant_index
           fetch_instr := ParseTextureFetchInstruction op }] ∧
    (s.GatherTextureFetchInformation op u).2 = u := by
  have hfc := parseTF_fetch_constant op hop
  have hmem := hop
  simp only [textureBindingOpcodes, List.mem_cons, List.mem_singleton,
    List.not_mem_nil, or_false] at hmem
  rcases hmem with h | h | h | h | h <;>
  · simp only [Shader.GatherTextureFetchInformation, h]
    rw [hfc, gatherOperand_foldl_tb, gatherFetchResult_tb, hf]
    exact ⟨rfl, rfl⟩

/-- For a binding opcode whose fetch constant is not yet bound, a fresh
binding with index equal to the unique counter is appended and the counter
increments. -/
theorem gatherTF_fresh (s : Shader) (u : Nat)
    (op : TextureFetchInstruction)
    (hop : op.opcode ∈ textureBindingOpcodes)
    (hf : s.texture_bindings.find?
        (fun b => decide (b.fetch_constant = op.fetch_constant_index)) =
      none) :
    (s.GatherTextureFetchInformation op u).1.texture_bindings =
      s.texture_bindings ++
        [{ binding_index := u
           fetch_constant := op.fetch_constant_index
           fetch_instr := ParseTextureFetchInstruction op }] ∧
    (s.GatherTextureFetchInformation op u).2 = u + 1 := by
  have hfc := parseTF_fetch_constant op hop
  have hmem := hop
  simp only [textureBindingOpcodes, List.mem_cons, List.mem_singleton,
    List.not_mem_nil, or_false] at hmem
  rcases hmem with h | h | h | h | h <;>
  · simp only [Shader.GatherTextureFetchInformation, h]
    rw [hfc, gatherOperand_foldl_tb, gatherFetchResult_tb, hf]
    exact ⟨rfl, rfl⟩

/-- One GatherTextureFetchInformation step preserves the dedup invariant
(for the texture opcodes the analyzer routes here). -/
theorem gatherTF_inv (s : Shader) (u : Nat) (op : TextureFetchInstruction)
    (hvf : op.opcode ≠ FetchOpcode.kVertexFetch)
    (h : TexInv s.texture_bindings u) :
    TexInv (s.GatherTextureFetchInformation op u).1.texture_bindings
      (s.GatherTextureFetchInformation op u).2 := by
  by_cases hset : op.opcode = FetchOpcode.kSetTextureLod ∨
      op.opcode = FetchOpcode.kSetTextureGradientsHorz ∨
      op.opcode = FetchOpcode.kSetTextureGradientsVert
  · obtain ⟨h1, h2⟩ := gatherTF_setter s u op hset
    rw [h1, h2]
    exact h
  · have hop : op.opcode ∈ textureBindingOpcodes := by
      cases hoc : op.opcode <;> simp_all [textureBindingOpcodes]
    cases hfind : s.texture_bindings.find?
        (fun b => decide (b.fetch_constant = op.fetch_constant_index)) with
    | some tb =>
      obtain ⟨h1, h2⟩ := gatherTF_found s u op tb hop hfind
      rw [h1, h2]
      have htbmem := List.mem_of_find?_eq_some hfind
      have htbfc : tb.fetch_constant = op.fetch_constant_index := by
        simpa using List.find?_some hfind
      constructor
      · intro b1 hb1 b2 hb2 heq
        rcases List.mem_append.mp hb1 with hb1 | hb1 <;>
          rcases List.mem_append.mp hb2 with hb2 | hb2
        · exact h.1 b1 hb1 b2 hb2 heq
        · simp only [List.mem_singleton] at hb2
          subst hb2
          have heq2 : b1.fetch_constant = op.fetch_constant_index := heq
          exact h.1 b1 hb1 tb htbmem (heq2.trans htbfc.symm)
        · simp only [List.mem_singleton] at hb1
          subst hb1
          have heq2 : op.fetch_constant_index = b2.fetch_constant := heq
          exact (h.1 b2 hb2 tb htbmem (heq2.symm.trans htbfc.symm)).symm
        · simp only [List.mem_singleton] at hb1 hb2
          subst hb1
          subst hb2
          rfl
      · intro b hb
        rcases List.mem_append.mp hb with hb | hb
        · exact h.2 b hb
        · simp only [List.mem_singleton] at hb
          subst hb
          exact h.2 tb htbmem
    | none =>
      obtain ⟨h1, h2⟩ := gatherTF_fresh s u op hop hfind
      rw [h1, h2]
      have hnone := List.find?_eq_none.mp hfind
      constructor
      · intro b1 hb1 b2 hb2 heq
        rcases List.mem_append.mp hb1 with hb1 | hb1 <;>
          rcases List.mem_append.mp hb2 with hb2 | hb2
        · exact h.1 b1 hb1 b2 hb2 heq
        · simp only [List.mem_singleton] at hb2
          subst hb2
          have heq2 : b1.fetch_constant = op.fetch_constant_index := heq
          exact absurd heq2 (by simpa using hnone b1 hb1)
        · simp only [List.mem_singleton] at hb1
          subst hb1
          have heq2 : op.fetch_constant_index = b2.fetch_constant := heq
          exact absurd heq2.symm (by simpa using hnone b2 hb2)
        · simp only [List.mem_singleton] at hb1 hb2
          subst hb1
          subst hb2
          rfl
      · intro b hb
        rcases List.mem_append.mp hb with hb | hb
        · exact Nat.lt_succ_of_lt (h.2 b hb)
        · simp only [List.mem_singleton] at hb
          subst hb
          exact Nat.lt_succ_self u

/-- Folding texture gathers preserves the dedup invariant. -/
theorem processTexOps_inv :
    ∀ (ops : List TextureFetchInstruction) (s : Shader) (u : Nat),
    (∀ op ∈ ops, op.opcode ≠ FetchOpcode.kVertexFetch) →
    TexInv s.texture_bindings u →
    TexInv (processTexOps s u ops).1.texture_bindings
      (processTexOps s u ops).2
  | [], _, _, _, h => h
  | op :: rest, s, u, hvf, h => by
    simp only [processTexOps]
    exact processTexOps_inv rest _ _
      (fun o ho => hvf o (List.mem_cons_of_mem _ ho))
      (gatherTF_inv s u op (hvf op (List.mem_cons_self _ _)) h)

/-- C6: texture binding indices are deduplicated by fetch constant slot.
After processing any sequence of texture fetch instructions from an empty
binding table, any two bindings with the same fetch constant share a binding
index; a further actual fetch on a previously unseen slot appends a binding
with a fresh index, unused by every existing binding; and LOD/gradient
setter instructions create no binding and leave the counter unchanged. -/
theorem c6_texture_binding_dedup (s0 : Shader)
    (ops : List TextureFetchInstruction)
    (h0 : s0.texture_bindings = [])
    (hvf : ∀ op ∈ ops, op.opcode ≠ FetchOpcode.kVertexFetch) :
    (∀ b1 ∈ (processTexOps s0 0 ops).1.texture_bindings,
      ∀ b2 ∈ (processTexOps s0 0 ops).1.texture_bindings,
      b1.fetch_constant = b2.fetch_constant →
      b1.binding_index = b2.binding_index) ∧
    (∀ op : TextureFetchInstruction, op.opcode ∈ textureBindingOpcodes →
      (∀ b ∈ (processTexOps s0 0 ops).1.texture_bindings,
        b.fetch_constant ≠ op.fetch_constant_index) →
      ((processTexOps s0 0 ops).1.GatherTextureFetchInformation op
          (processTexOps s0 0 ops).2).1.texture_bindings =
        (processTexOps s0 0 ops).1.texture_bindings ++
          [{ binding_index := (processTexOps s0 0 ops).2
             fetch_constant := op.fetch_constant_index
             fetch_instr := ParseTextureFetchInstruction op }] ∧
      (∀ b ∈ (processTexOps s0 0 ops).1.texture_bindings,
        b.binding_index ≠ (processTexOps s0 0 ops).2)) ∧
    (∀ op : TextureFetchInstruction,
      (op.opcode = FetchOpcode.kSetTextureLod ∨
       op.opcode = FetchOpcode.kSetTextureGradientsHorz ∨
       op.opcode = FetchOpcode.kSetTextureGradientsVert) →
      ((processTexOps s0 0 ops).1.GatherTextureFetchInformation op
          (processTexOps s0 0 ops).2).1.texture_bindings =
        (processTexOps s0 0 ops).1.texture_bindings ∧
      ((processTexOps s0 0 ops).1.GatherTextureFetchInformation op
          (processTexOps s0 0 ops).2).2 = (processTexOps s0 0 ops).2) := by
  have hinv : TexInv (processTexOps s0 0 ops).1.texture_bindings
      (processTexOps s0 0 ops).2 := by
    refine processTexOps_inv ops s0 0 hvf ?_
    rw [h0]
    exact ⟨fun b hb => absurd hb (List.not_mem_nil b),
      fun b hb => absurd hb (List.not_mem_nil b)⟩
  refine ⟨hinv.1, ?_, fun op h => gatherTF_setter _ _ op h⟩
  intro op hop hnew
  have hfind : (processTexOps s0 0 ops).1.texture_bindings.find?
      (fun b => decide (b.fetch_constant = op.fetch_constant_index)) =
      none :=
    List.find?_eq_none.mpr fun b hb => by simpa using hnew b hb
  refine ⟨(gatherTF_fresh _ _ op hop hfind).1, ?_⟩
  intro b hb
  exact Nat.ne_of_lt (hinv.2 b hb)

/-- Witness for C6: after two fetches on slot 3 and one on slot 5, a pure
LOD setter leaves the binding table and the counter unchanged. -/
theorem c6_texture_binding_dedup_witness :
    ((processTexOps {} 0 c6Ops).1.GatherTextureFetchInformation c6Setter
        (processTexOps {} 0 c6Ops).2).1.texture_bindings =
      (processTexOps {} 0 c6Ops).1.texture_bindings :=
  ((c6_texture_binding_dedup {} c6Ops rfl (by decide)).2.2 c6Setter
    (Or.inl rfl)).1

/-- Writing inside list bounds is read back. -/
theorem getD_set_self (v : Nat) :
    ∀ (l : List Nat) (i : Nat), i < l.length → (l.set i v).getD i 0 = v
  | [], _, h => absurd h (by simp)
  | _ :: _, 0, _ => rfl
  | _ :: xs, n + 1, h => getD_set_self v xs n (by simpa using h)

/-- Setting outside the list bounds is a no-op. -/
theorem set_of_length_le (v : Nat) :
    ∀ (l : List Nat) (i : Nat), l.length ≤ i → l.set i v = l
  | [], _, _ => rfl
  | _ :: _, 0, h => absurd h (by simp)
  | x :: xs, n + 1, h =>
    congrArg (List.cons x) (set_of_length_le v xs n (by simpa using h))

/-- UsageLe is reflexive. -/
theorem usageLe_refl (s : Shader) : UsageLe s s :=
  ⟨le_refl _, fun h => h, rfl, fun _ _ _ hb => hb, fun h => h⟩

/-- UsageLe is transitive. -/
theorem usageLe_trans {s t u : Shader} (h1 : UsageLe s t)
    (h2 : UsageLe t u) : UsageLe s u := by
  obtain ⟨hb1, hd1, hl1, hbt1, hf1⟩ := h1
  obtain ⟨hb2, hd2, hl2, hbt2, hf2⟩ := h2
  refine ⟨le_trans hb1 hb2, fun h => hd2 (hd1 h), hl2.trans hl1, ?_,
    fun h => hf2 (hf1 h)⟩
  intro w hw b hb
  refine hbt2 w ?_ b (hbt1 w hw b hb)
  rw [List.mem_range] at hw ⊢
  omega

/-- GatherOperandInformation only grows the usage accumulators. -/
theorem gatherOperand_usageLe (s : Shader) (o : InstructionOperand) :
    UsageLe s (s.GatherOperandInformation o) := by
  unfold Shader.GatherOperandInformation
  split
  · split
    · exact ⟨le_max_left _ _, fun h => h, rfl, fun _ _ _ hb => hb,
        fun h => h⟩
    · exact ⟨le_refl _, fun _ => rfl, rfl, fun _ _ _ hb => hb, fun h => h⟩
  · split
    · refine ⟨le_refl _, fun h => h, by simp, ?_, fun h => h⟩
      intro w hw b hb
      by_cases hww : w = o.storage_index >>> 6
      · subst hww
        by_cases hlen : o.storage_index >>> 6 <
            s.constant_register_map.float_bitmap.length
        · rw [getD_set_self _ _ _ hlen, Nat.testBit_or, hb]
          rfl
        · rw [set_of_length_le _ _ _ (by omega)]
          exact hb
      · rw [getD_set_ne _ _ _ _ hww]
        exact hb
    · exact ⟨le_refl _, fun h => h, rfl, fun _ _ _ hb => hb, fun _ => rfl⟩
  · exact usageLe_refl s

/-- GatherFetchResultInformation only grows the usage accumulators. -/
theorem gatherFetchResult_usageLe (s : Shader) (r : InstructionResult) :
    UsageLe s (s.GatherFetchResultInformation r) := by
  unfold Shader.GatherFetchResultInformation
  split
  · exact usageLe_refl s
  · split
    · exact ⟨le_max_left _ _, fun h => h, rfl, fun _ _ _ hb => hb,
        fun h => h⟩
    · exact ⟨le_refl _, fun _ => rfl, rfl, fun _ _ _ hb => hb, fun h => h⟩

/-- Folding GatherOperandInformation only grows the usage accumulators. -/
theorem usageLe_foldl (l : List InstructionOperand) :
    ∀ s : Shader, UsageLe s (l.foldl Shader.GatherOperandInformation s) :=
  match l with
  | [] => fun s => usageLe_refl s
  | o :: rest => fun s =>
    usageLe_trans (gatherOperand_usageLe s o)
      (usageLe_foldl rest (s.GatherOperandInformation o))

/-- One GatherOperandInformation step feeds its own operand. -/
theorem operandFed_gatherOperand (s : Shader) (o : InstructionOperand) :
    OperandFed o (s.GatherOperandInformation o) := by
  refine ⟨?_, ?_, ?_, ?_⟩
  · intro hsrc hmode
    simp only [Shader.GatherOperandInformation, hsrc, hmode, if_pos]
    exact le_max_right _ _
  · intro hsrc hmode
    simp only [Shader.GatherOperandInformation, hsrc, if_neg hmode]
  · intro hsrc hmode hlen
    simp only [Shader.GatherOperandInformation, hsrc, hmode, if_pos] at hlen ⊢
    rw [List.length_set] at hlen
    rw [getD_set_self _ _ _ hlen, Nat.testBit_or]
    have hbit : (1 <<< (o.storage_index &&& 63)).testBit
        (o.storage_index &&& 63) = true := by
      rw [Nat.shiftLeft_eq, one_mul]
      exact @Nat.testBit_two_pow_self (o.storage_index &&& 63)
    rw [hbit]
    simp
  · intro hsrc hmode
    simp only [Shader.GatherOperandInformation, hsrc, if_neg hmode]

/-- OperandFed transfers along UsageLe. -/
theorem operandFed_mono (o : InstructionOperand) {s t : Shader}
    (hle : UsageLe s t) (h : OperandFed o s) : OperandFed o t := by
  obtain ⟨hb, hd, hl, hbt, hf⟩ := hle
  obtain ⟨h1, h2, h3, h4⟩ := h
  refine ⟨fun hsrc hmode => le_trans (h1 hsrc hmode) hb,
    fun hsrc hmode => hd (h2 hsrc hmode), ?_,
    fun hsrc hmode => hf (h4 hsrc hmode)⟩
  intro hsrc hmode hlen
  rw [hl] at hlen
  exact hbt _ (List.mem_range.mpr hlen) _ (h3 hsrc hmode hlen)

/-- Folding GatherOperandInformation feeds every operand of the list. -/
theorem operandFed_foldl :
    ∀ (l : List InstructionOperand) (s : Shader) (o : InstructionOperand),
    o ∈ l → OperandFed o (l.foldl Shader.GatherOperandInformation s)
  | [], _, o, ho => absurd ho (List.not_mem_nil o)
  | p :: rest, s, o, ho => by
    rw [List.foldl_cons]
    rcases List.mem_cons.mp ho with heq | hr
    · subst heq
      exact operandFed_mono o (usageLe_foldl rest _)
        (operandFed_gatherOperand s o)
    · exact operandFed_foldl rest _ o hr

/-- C7 counterexample: a decoded vertex fetch whose result has no used
components does not feed its operands into the usage accumulators: its
source operand statically reads register 5, yet the register high-water mark
stays 0 after GatherVertexFetchInformation on a fresh shader. -/
theorem c7_counterexample :
    ((ParseVertexFetchInstruction c7Vf7 {}).1.operands.getD 0
        default).storage_source = InstructionStorageSource.kRegister ∧
    ((ParseVertexFetchInstruction c7Vf7 {}).1.operands.getD 0
        default).storage_addressing_mode =
      InstructionStorageAddressingMode.kStatic ∧
    ((ParseVertexFetchInstruction c7Vf7 {}).1.operands.getD 0
        default).storage_index = 5 ∧
    (({} : Shader).GatherVertexFetchInformation c7Vf7
        {}).1.register_static_address_bound = 0 := by
  decide

/-- C7 (amended): every decoded texture-fetch and ALU instruction feeds all
its operands into the constant/register usage accumulation (register
high-water mark, dynamic-addressing flags, float bitmap or all-used flag),
while a decoded vertex fetch feeds its operands only when its result has at
least one used component. -/
theorem c7_operand_accumulation_amended :
    (∀ (s : Shader) (op prev : VertexFetchInstruction),
      (ParseVertexFetchInstruction op
        prev).1.result.GetUsedResultComponents ≠ 0 →
      ∀ o ∈ (ParseVertexFetchInstruction op prev).1.operands,
      OperandFed o (s.GatherVertexFetchInformation op prev).1) ∧
    (∀ (s : Shader) (op : TextureFetchInstruction) (u : Nat),
      ∀ o ∈ (ParseTextureFetchInstruction op).operands,
      OperandFed o (s.GatherTextureFetchInformation op u).1) ∧
    (∀ (s : Shader) (op : AluInstruction) (c eA : Nat),
      ∀ o ∈ (ParseAluInstruction op s.shader_type).vector_operands ++
        (ParseAluInstruction op s.shader_type).scalar_operands,
      OperandFed o (s.GatherAluInstructionInformation op c eA).1) := by
  refine ⟨?_, ?_, ?_⟩
  · intro s op prev hused o ho
    simp only [Shader.GatherVertexFetchInformation]
    rw [if_neg hused]
    split
    · exact operandFed_foldl _ _ o ho
    · exact operandFed_foldl _ _ o ho
  · intro s op u o ho
    simp only [Shader.GatherTextureFetchInformation]
    repeat' split
    all_goals exact operandFed_foldl _ _ o ho
  · intro s op c eA o ho
    simp only [Shader.GatherAluInstructionInformation]
    have hfed : OperandFed o
        ((ParseAluInstruction op s.shader_type).scalar_operands.foldl
          Shader.GatherOperandInformation
          ((ParseAluInstruction op s.shader_type).vector_operands.foldl
            Shader.GatherOperandInformation
            ((({ s with
                kills_pixels := s.kills_pixels ||
                  AluVectorOpcodeIsKill op.vector_opcode ||
                  AluScalarOpcodeIsKill op.scalar_opcode
                : Shader}).GatherAluResultInformation
                (ParseAluInstruction op
                  s.shader_type).vector_and_constant_result
                c).GatherAluResultInformation
                (ParseAluInstruction op s.shader_type).scalar_result c))) := by
      rcases List.mem_append.mp ho with hv | hs
      · exact operandFed_mono o (usageLe_foldl _ _)
          (operandFed_foldl _ _ o hv)
      · exact operandFed_foldl _ _ o hs
    repeat' split
    all_goals exact hfed

/-- Witness for the amended C7: the source register operand of a concrete
full vertex fetch with a used result is fed into the accumulators. -/
theorem c7_operand_accumulation_amended_witness :
    OperandFed
      ((ParseVertexFetchInstruction c7VfGood {}).1.operands.getD 0 default)
      (({} : Shader).GatherVertexFetchInformation c7VfGood {}).1 :=
  c7_operand_accumulation_amended.1 {} c7VfGood {} (by decide)
    ((ParseVertexFetchInstruction c7VfGood {}).1.operands.getD 0 default)
    (by decide)

end xe
